import Mathlib

/- Verification development for the rust_learning repository.

The repository is a set of fourteen tutorial note files under src/bin/, each a
sequence of Rust line comments, with one uncommented illustrative code fragment
in src/bin/6-lifetimes.rs.  This file embeds the fourteen files verbatim, line
by line, as lists of strings; classifies lines as prose (comment or blank)
versus code; and shallowly embeds the two functions the fragment defines,
fn scale (i32 arithmetic, both wrapping and overflow-checked semantics) and
fn function (i32 and f64), as Lean functions.  Theorems about these definitions
settle the stated properties of the repository. -/

namespace RustLearning

set_option maxRecDepth 16000

/-- Verbatim line-by-line content of src/bin/0-allocation.rs (139 lines). -/
def file_0_allocation : List String := [
  "// Allocation",
  "//",
  "// ----------------- PROCESSES AND MEMORY ------------------",
  "//",
  "// Each process when created gets a chuck of memory. Each chunk of memory assigned by the operative",
  "// system has a collection of metadata indicating the allowed operations on that memory:",
  "//   - read",
  "//   - write",
  "//   - execute",
  "//   - copy_on_write",
  "//",
  "// If the code of the process tries to utilize the memory in a not-allowed way it provokes and",
  "// interruption of the process that in windows is called ACCESS VIOLATION and in unix systems is called",
  "// SEGMENTATION FAULT.",
  "//",
  "// The chunk of memory assigned to the process gets divided in different \"zones\" having each one a",
  "// different usage.",
  "// The zones of memory in chunk assigned to the process are:",
  "//",
  "// - Executable code, contains the code to be executed to assolve the process",
  "// - Constants, contains immutable variables and can be only red",
  "// - Global variables, contains variables that can be both red or written",
  "// - Stack, contains local variables, arguments of the program, return values and the address that",
  "// have to be used to return the execution to the caller of the process",
  "// - Heap, contains memory that can be accessed only using pointers, can be both red or written",
  "//",
  "// An example of the stack in a program containing a simple function that returns the product of ",
  "// the argument passed plus one multiplied for the argument passed plus one:",
  "//",
  "// fn f(a: i32) -> i32 \x7b",
  "//  let b = a + 1;",
  "//  return b * b;",
  "// \x7d",
  "//",
  "// fn main() \x7b",
  "//  let x = f(2);",
  "//  return x;",
  "// \x7d",
  "//",
  "// This is the stack in this example:",
  "//",
  "// ----------------------",
  "// | res: |           | |",
  "// |      ------------- |",
  "// | return address     | ",
  "// | ------------------ |",
  "// | x: |           |   |",
  "// |      ----------    |",
  "// ______________________",
  "// | res: | 9        |  |",
  "// |       __________   |",
  "// | a:   | 2        |  |",
  "// |       __________   |",
  "// | return address     |",
  "// | ------------------ |",
  "// | b: | 3        |    |",
  "// |      ----------    |",
  "// ----------------------",
  "//",
  "//  ! Note that it grows to the bottom !",
  "//",
  "//  -------------- LANGUAGES API FOR MEMORY ALLOCATION ----------------",
  "//",
  "//  In C language variables are distinguished as global, local and dynamic.",
  "//  Each type has a different life cycle.",
  "//",
  "//  - Global variables have an static address, determined by the compiler and the linker",
  "//  At the start of the program are initialized.",
  "//  - Local variables have a logical address depending on the scope of the variable (the function",
  "//  that contains it) as seen in the previous example.",
  "//  Also their life cycle is equal to the scope in which they are declared.",
  "//  At the boot of the program they contain a random value.",
  "//  - Dynamic variables have an absolute address determined in execution of the program,",
  "//  they are accessible only using pointers, the programmer determines their lifetime and the value",
  "//  can be initialized or not.",
  "//",
  "//  These mechanisms can be used only if the language (as C does) provide a way to allocate and",
  "//  deallocate memory inside of the chuck given by the OS.",
  "//",
  "//  C uses malloc, calloc, realloc and free.",
  "//  C++ uses new, new[], delete and delete[].",
  "//  ",
  "//  Each one of these operations operates on pointers.",
  "//  ",
  "//  ----------------- POINTERS ------------------------",
  "//",
  "//  Pointers are always a number referring a specific location on the memomy, so they are in range",
  "//  0..2^n - 1.",
  "//  They can be INVALID tho, they can contain a number that represents a location that the",
  "//  OPERATIVE SYSTEM not assigned to the process.",
  "//  Also for programmers is sometime useful represent invalid pointers in some way,",
  "//  various representation of the invalid pointer are available:",
  "//  - 0",
  "//  - NULL or (void*) 0",
  "//  - nullptr (used in C++11 and successive versions)",
  "//  When using a pointer is our responsibility to establish which permissions are we allowed to",
  "//  take using it.",
  "//  These freedom comes with potential questions:",
  "//",
  "//  - Is it valid?",
  "//  - How much memory am i allowed to access from the address of the pointer?",
  "//  - How big is the content of the pointer?",
  "//  - Can i write at the pointer address?",
  "//  - Do i need to release it?",
  "//  - Do any other code scopes contain the address of the pointer?",
  "//  - Is it only a symbol representing if the data is valid?",
  "//",
  "//  The usage of pointers is usually divided in categories:",
  "//",
  "//  CASES IN WHICH THE POINTER DOES NOT OWN THE DATA",
  "//  - Used to access data at the moment that is passed by someone else ",
  "//  - Used as a way to pass the address in which we want a function writes in",
  "//  - Used to access consecutive data in memory as arrays, !!! they can grow over the allocated",
  "//  memory !!!",
  "//",
  "//  CASES IN WHICH THE POINTER OWNS THE DATA (SO HAS TO DEALLOCATE THE MEMORY WHEN DONE WITH IT)",
  "//  - Used to access a data in the heap",
  "//  - Used to represent an optional return value from a function",
  "//  - Used to implement complex data structures",
  "//",
  "//  The usage of pointers in the case of owning data so can cause serious problems.",
  "//  C++ uses smart pointers that automatically deallocate the memory.",
  "//  So the programmer has less to think about memory while realizing a program.",
  "//",
  "//  Potential problems when not using a good strategy for allocation and deallocation of pointers",
  "//  are:",
  "//  - Dangling pointers, usage of pointers that have been deallocated. Produces undefined behavior",
  "//  since the memory pointed can contain any value.",
  "//  - Memory leakage, memory cannot be used anymore since the program ended but the memory is not",
  "//  signaled as available to the operative system. Problematic in cases in which the computer",
  "//  cannot restart or being turn off as in servers often happens.",
  "//  - Wild pointers, pointers that are used without assigning an address, contain an unpredictable",
  "//  value that is considered by the program as an address. It can cause undefined behaviour or",
  "//  crash.",
  "//  ",
  "//  Proper memory allocation is DIFFICULT!",
  "//  Often tools as valgrind and Dr.Memory are used to check if the program written by ourself is",
  "//  referencing memory in a risky way.",
  ""
]

/-- Verbatim line-by-line content of src/bin/2-language.rs (227 lines). -/
def file_2_language : List String := [
  "// --------------- VARIABLES AND TYPES -----------------",
  "//",
  "// A variable binds a name to a value, in Rust this bind is created using the \'let\' keyword.",
  "// Rust favours immutability so when a variable is created it is automatically set to be immutable.",
  "// To allow mutability during the program use the \'mut\' keyword.",
  "// Each variable when initialized has a type, if not specified a type gets inferred from the value.",
  "// The type coherces the successive instruction to set the variable value only on certains values",
  "// allowed for the type, also it coherces the programmer on the operations that can be performed on",
  "// the type.",
  "// A type can be also explicitely declared in the declaration of the variable using the \':\'",
  "// operator after the name of the variable and the type.",
  "//",
  "// ---------------- VALUES ---------------",
  "//",
  "// The value of a variable can be specified or produced evaluating an expression.",
  "// An expression gets evaluated by default moving from left to right, this order can be modified",
  "// using the round parententhesis.",
  "// In Rust each expression produces a value, even when the expression doesn\'t logically return",
  "// anything it returns an empty tuple \'()\'.",
  "// ",
  "// ---------------- TYPES AND TRAITS ----------------",
  "//",
  "// Rust provides a set of predefined types that can be used in the program.",
  "// These types are called elementary or primitive types:",
  "//",
  "// - tuple",
  "// - strings",
  "// - arrays",
  "// - slices",
  "// - never",
  "// - pointers",
  "// ",
  "// and so on...",
  "// Differently from other languages types are not organized in a hierarchy.",
  "// It\'s inevitable that 2 or more types share properties so Rust provides a mechanism to represent",
  "// these relationships using traits.",
  "// A trait describes a set of methods that a certain type can implement.",
  "// The compiler uses the information about the trait to evaluate the correctness of the program at",
  "// compile time.",
  "// Traits are similar to what in the other languages is done with interfaces.",
  "//",
  "// As said before inevitably unrelated primitive types share some traits for example:",
  "//",
  "// i32 implements the \'Copy\' trait.",
  "// Vec and String share the \'Clone\' and \'Drop\' trait.",
  "// i32, Vec and String implement the \'Send\' trait.",
  "// i32 and String share the \'Display\' trait.",
  "// And many other types and traits have methods that come from the same traits even if the types",
  "// are not related directly.",
  "//",
  "// ----------------- PRIMITIVE TYPES ----------------",
  "//",
  "// Primitive types in Rust are:",
  "//",
  "// - Numbers with sign: i8, i16, i32, i64, i128, isize",
  "// - Numbers without sign: u8, u16, u32, u64, u128, usize",
  "// - Numbers with floating point: f32, f64",
  "// - Boolean: bool",
  "// - Character: char (they are encoded using unicode standard)",
  "// - Unit: (), it represents as said above the empty value.",
  "//",
  "// ---------------- STRINGS ----------------",
  "//",
  "// Strings are implemented in Rust using more than one type to allow programmers versatility on",
  "// implementation of low level programs:",
  "// ",
  "// - &str, is a primitive type that is a slice of bytes that are valid in the UTF-8 encoding.",
  "// - String, is a type that collects bytes in a Vec. String type is allocated automatically on the",
  "// heap.",
  "//",
  "// ---------------- TUPLES ----------------",
  "//",
  "// Tuples are ordered collections of eterogenous values. Tuples are constructed using the \'()\'",
  "// operator.",
  "// Each field of a tuple can be accessed using the \'dot\' operator followed by the index of the",
  "// value.",
  "//",
  "// ---------------- REFERENCES, BOXES AND RAW POINTERS ----------------",
  "//",
  "// Rust offers different ways to represent memory addresses:",
  "//",
  "// 1. References that can be immutable or mutable and are represented by \'&\' and \'&mut\'.",
  "// 2. Box that is represented by a type itself.",
  "// 3. Raw pointers, can be immutable and mutable and are represented by \'*const\' and \'*mut\'.",
  "//",
  "// Differently from C and C++, the usage of pointers is \"simplified\" by ensurance made by the compiler.",
  "// In particular the compiler checks if a pointer has possession of the data and if a pointer is",
  "// valid verifying that the data is accessed while his lifetime is valid.",
  "// In rare cases the programmer wants to elude this checks and can do it enclosing the code within",
  "// an unsafe block.",
  "//",
  "// A mainly difference between references and pointers is that references cannot be null.",
  "// Neither references can refer an expired value.",
  "// A special system within the compiler called BorrowChecker is in charge of verifying the above",
  "// conditions and restricting in a given scope that will always be only one writer or multiple",
  "// readers.",
  "// C++ have references but they are mainly different from Rust ones.",
  "//",
  "// All local variables are allocated on the stack, when we want to create a variable that survives",
  "// the scope in which is declared we should use the Box type that forces the specified variable to",
  "// be allocated on the heap instead.",
  "// The content of the Box tho is accessed in the same way as the references and raw pointers do,",
  "// using *name_of_the_variable notation also called dereferencing the pointer.",
  "// ",
  "// EXAMPLE OF USAGE OF BOX",
  "//",
  "// fn makeBox(a: i32) -> Box<(i32,i32)> \x7b",
  "//  let b = Box::new( (a, 1) );",
  "//  return b;",
  "// \x7d",
  "//",
  "// fn main() \x7b",
  "//  let b = makeBox(5);",
  "//  let c = b.0 + b.1;",
  "// \x7d",
  "//",
  "// The dereference of a raw pointer requires to be done within an unsafe block.",
  "//",
  "// ---------------- ARRAYS -----------------------",
  "//",
  "// Arrays are ordered collections of omogenous values. Arrays are constructed using the \'[]\'",
  "// operator. If an array is declared it MUST have a known size and this have to be specified",
  "// during the declaration of the array itself.",
  "//",
  "// EXAMPLE OF UNINITIALIZED ARRAY",
  "// let array: [i32; 10];",
  "//",
  "// EXAMPLE OF INITIALIZED ARRAY",
  "// let array = [1, 2, 3, 4, 5, 6, 7, 8, 9, 10];",
  "//",
  "// EXAMPLE OF INITIALIZED ARRAY WITH FIXED VALUE",
  "// let array = [3; 10];",
  "//",
  "// EXAMPLE OF ACCESS TO A VALUE WITHIN AN ARRAY",
  "// println!(\"\x7b\x7d\",array[0]);",
  "//",
  "// --------------- SLICES -----------------------",
  "//",
  "// Slices are references to a sequence of elements contained within an array.",
  "// They are implemented using the address of the first element and the length of the sequence.",
  "// This couple of informations is also called \'fat pointer\'.",
  "// Basically a slice is immutable, it should be declared otherwise specifying &mut and the array",
  "// portion to be sliced.",
  "// To access an element within a slice the same method of the arrays is used.",
  "//",
  "// --------------- VEC ----------------",
  "//",
  "// Vec is a dynamic array (dynamically sized = can grow) that is allocated on the heap.",
  "// The Vec type is internally implemented as a tuple of 3 values:",
  "//",
  "// - pointer to a buffer on the heap",
  "// - length of the buffer",
  "// - elements allocated in the buffer",
  "//",
  "// When the program asks to add an element to the Vec, the vec checks if the buffer is full and if",
  "// it is allocates more space for the buffer to allow the addition of the new element.",
  "// NOTE: that the previous buffer is first copied into the new buffer and then DEALLOCATED, ",
  "// so the buffer has different addresses in memory before and after an insertion that triggers",
  "// the reallocation.",
  "//",
  "// --------------- FUNCTIONS ----------------",
  "//",
  "// Functions are the core element of any program.",
  "// They are defined using the \'fn\' keyword.",
  "// Then should be specified a name for the function,",
  "// a list of parameters",
  "// and a return type (when not specified it\'s \'()\').",
  "// The compiler also checks if any value is returned inside the body",
  "// checking if it\'s not followed by \";\".",
  "//",
  "// --------------- INSTRUCTIONS AND EXPRESSIONS ----------------",
  "//",
  "// An istruction is an action that is separed by the others using \";\" at the end of a line.",
  "// An expression instead returns always a value and is characterized by a block \"\x7b \x7d\" with a series",
  "// of instructions and a return value.",
  "// IF, ELSE and LOOPS are considered as expressions.",
  "// An expression can be interrupted using special keywords as \"break\" and \"continue\".",
  "// Expressions can be annidated one within the other.",
  "// Between the loops FOR has a significative difference from classic programming languages.",
  "// As expression has to return a value or a set of values that can be built into an iterator.",
  "// Iterators compatible values are for example: arrays, slices and range.",
  "// ",
  "// Another add-on to classic syntax is the usage of ranges as collections of consecutive comparable elements,",
  "// for example \'1..5\' is used to resamble the range of numbers from 1 to 4.",
  "// A symbol \'=\' can preceed the last value in a range to include in the range the last value.",
  "// Example: \'1..=5\' is used to resamble the range of numbers from 1 to 5.",
  "//",
  "// Another add-on to the classic syntax is the statement MATCH. It is used to execute conditionally",
  "// a block of code specifying a pattern to test against a specified value. Each pattern is",
  "// specified as \"PATTERN => \x7b CODE TO BE EXECUTED IF THE PATTERN IS TRUE \x7d,\"",
  "// To used the same name of the variable given in the pattern inside the corresponding block of code",
  "// the name of the variable within the pattern can be preceeded by the \'@\' operator.",
  "//",
  "// If the pattern contains only an identifier name within the pattern itself, the variable passed to the match expression automatically",
  "// is assigned to that name.",
  "// If the pattern contains no names the value can be compared against special operators as:",
  "// - \'..=\' that means the value is included in the range",
  "// - \'|\' that means the value is either equal to the first element OR the second.",
  "// - \'_\' that means if no other pattern got matched before this one will match.",
  "// The order in which the patterns are written is the same in which they are evaluated and if one",
  "// matches the followings patterns are ignored.",
  "//",
  "// EXAMPLE OF SPECIAL OPERATORS WITHIN A MATCH EXPRESSION",
  "//",
  "// let values = [1, 2, 3];",
  "// match &values[..] \x7b // crea una slice con tutti gli elementi",
  "//   Contiene almeno un elemento, il primo valore è 0",
  "//   &[0, ..] => println!(\"Comincia con 0\"),",
  "//   Contiene almeno un elemento, l’ultimo valore è compreso tra 3 e 5",
  "//   &[.., v @ 3..=5] => println!(\"Finisce con \x7b\x7d\", v),",
  "//   Contiene almeno due elementi",
  "//   &[_, v, ..] => println!(\"Il secondo valore è \x7b\x7d\", v),",
  "//   Contiene un solo elemento",
  "//   &[v] => println!(\"Ha un solo elemento: \x7b\x7d\", v),",
  "//   Non contiene elementi",
  "//   &[] => println!(\"E\' vuoto\")",
  "// \x7d",
  "//",
  "// ---------------- RUST COMMUNITY NAMING CONVENTIONS ------------------",
  "//",
  "// Rust community has shared a common sense rules for naming conventions.",
  "// They are:",
  "//",
  "// - Names of struct, enum, traits and other predefined rust keywords should be in UpperCamelCase.",
  "// - Names of variables, functions, methods and other non-predefined rust keywords should be in",
  "//   lower_snake_case.",
  ""
]

/-- Verbatim line-by-line content of src/bin/3-ownership.rs (131 lines). -/
def file_3_ownership : List String := [
  "//---------------- OWNERSHIP ------------------",
  "//",
  "// In rust each value introduced into the program is owned by one and one only variable.",
  "// The borrow checker, as part of the compiler, cheks effectively this assumption. So violation",
  "// of this rule will result in a compilation error.",
  "//",
  "// Owning a value means being responsible of it release.",
  "// If the value itself contains a pointer to another value it is responsible of releasing that",
  "// resource too and signaling to the OS that it is no longer in use.",
  "//",
  "// The release happens when a variable goes out of scope.",
  "// Rust offers a mechanism to control arbitrary instructions when the variable is no longer",
  "// in use. This is implemented by the Drop trait.",
  "// The release is demanded to another variable if its value is moved.",
  "//",
  "// --------------- MOVEMENT ----------------",
  "//",
  "// 1. When a variable gets initialized, it takes the ownership of the value.",
  "// 2. When a variable gets assigned, it takes the ownership of the value.",
  "// 3. When a value is passed as parameter, the function which takes the value as argument takes the ownership of the value.",
  "//",
  "// What happens to the variable when its value gets moved?",
  "// If red it implies a compilation error.",
  "// If written it succeds and enables again the variable to be red.",
  "// When the variable goes out of scope the memory is deallocated.",
  "//",
  "// --------------- COPY ---------------",
  "//",
  "// Not all values are moved when they are assigned to different variables from the original ones.",
  "// Basic types like numbers in Rust implement the Copy trait.",
  "// The copy trait allows them to have the value copied instead of being moved.",
  "// The copy trait implementation is relegated to basic types since their size and their content are",
  "// known at compile time. Each type that contains only basic types also implements the copy trait.",
  "// Also references to non-mutable values are copyable.",
  "// At execution time we see no differences between copied and moved values but in the writing of",
  "// the program we should constantly think about the difference.",
  "//",
  "// Appendix: Differences with C and C++",
  "// While Rust does automatically on variable assignement goes for the movement (only for the basic",
  "// types goes for copy), C uses always copy and C++ allows both but doesn\'t have any check at",
  "// compile time so the developer has full responsibility of the memory copy or movement.",
  "//",
  "// ------------ DEALING WITH POINTERS WHILE CARING OF MEMORY ------------",
  "//",
  "// A pointer is also a value for it\'s variable, what about a pointer correctly allocated pointing",
  "// to a variable that has been moved? Rust implements various pointers to allow the programmer to",
  "// make resposibilities explicit and give rights to do things only in the right way.",
  "//",
  "// ------------ IMMUTABLE REFERENCES ------------",
  "// A reference is a type of pointer that is read-only and allowes to access a variable without",
  "// taking ownership of it. A reference can exist only while the value pointed is also existing.",
  "// The compiler deferences the pointer automatically when the \'.\' (dot operator) is used.",
  "// A reference \"rents\" the address of the value. While a reference holds this address is not",
  "// possible to modify the value neither through the original variable nor through a mutable reference (that can\'t also be created).",
  "// Non mutable references implement the copy trait so it\'s possible to create multiple references",
  "// pointing a value at the same time leaving the ownership to the original value.",
  "// While there is at least one reference pointing the value it can\'t be modified nor be",
  "// destructed/deallocated.",
  "//",
  "// ------------ MUTABLE REFERENCES ------------",
  "// Mutable references allow to modify the value pointed by the reference.",
  "// Only one mutable reference for a value is allowed at runtime. While a mutable reference is",
  "// allocated references cannot be created to the same value.",
  "// Also the variable of the pointed value has to be mutable.",
  "// ",
  "// ------------ MEMORY REPRESENTATION OF REFERENCES --------------",
  "// A non mutable reference is represented with the size of the address of the value.",
  "// A mutable reference is represented with a fat-pointer (the address + the size of the allocated",
  "// value).",
  "// A reference to a dynamic value (a value which type is not known at compile time but is",
  "// referenced through traits) is represented with a double pointer, it contains the memory address",
  "// of the value and a pointer to the representation of the trait which is called vtable.",
  "//",
  "// ------------ LIFETIME -------------",
  "//",
  "// The borrow checker guarantees that all the accesses through a reference will not outlive the",
  "// variable which owns the data (avoid the dangling pointers issues). The set of lines in which the",
  "// reference is used is his lifetime.",
  "// Even if in many situations the lifetime is elided from the declaration since the compiler can",
  "// infer it from the code, it can be explicitly declared with the notation \"\'a\" using an arbitrary",
  "// letter. An explicit notation is useful when multiple reference to the same value are created.",
  "// When a reference is valid for the whole duration of the program it can be annotated (even if",
  "// it\'s easily inferred) with the special keyword static \"\'static\".",
  "// To be valid and not be signaled as an error by the borrow checker the lifetime of a reference",
  "// should be less or equal to the lifetime of the pointed value.",
  "// It\'s required to use the explicit notation when a reference is memorized inside a struct or when",
  "// a reference is returned by a function. In the case a reference it\'s memorized inside a struct",
  "// the reference has to live longer than the struct in which is memorized.",
  "//",
  "// ------------ SLICES -------------",
  "//",
  "// A slice is a reference to a sequence of values of a certain type. It\'s represented in memory",
  "// with a fat pointer containing the address of the first element and the size of the slice/ number",
  "// of the elements of the slice. A slice do not owns the values which points to.",
  "// An extensive group of the collections is \"sliceable\" (Vec, String, Box, ...).",
  "//",
  "// ------------ ADVANTAGES OF OWNERSHIP CONCEPT -----------",
  "//",
  "// MEMORY ADVANTAGES",
  "// - Nothing does not exist and cannot tho be a reference to nothing.",
  "// - Since the validity of reference is guaranteed by the compiler, is not possible to generate",
  "// segmentation fault or illegal access neither dangling pointers errors.",
  "// - Since the size of types is known at each moment, is impossible to crash for underflow or",
  "// overflow.",
  "// - For the same reason, iterators in Rust do not exceed the number of elements.",
  "// - All the variables are immutable, the programmer should explicitely mark them as mutable if",
  "// wants to change their value.",
  "// - The ownership model helps to handle logically also the ownership of restricted resources like sockets,",
  "// file handlers, database handlers and device descriptors.",
  "// - The absence of a garbage collector does not create non-deterministic errors.",
  "//",
  "// ------------ STRINGS -------------",
  "//",
  "// Rust offers two ways to represent strings:",
  "// 1. As immutable arrays of charactes sequences using the",
  "// Unicode representation for the characters using the type \"str\".",
  "// Constant strings represented inside double quotes are inferred as str.",
  "// Since the type str is not mutable it can be accessed only through slices.",
  "// 2. Using the String type. They contain a fat pointer composed by a buffer in the heap, the size of the string and the allocated memory for the buffer (ADDRESS, SIZE, CAPACITY). The buffer gets reallocated if the memory is not enough to contain the new value assigned.",
  "//",
  "// &str and String are interoperable, a static string can be converted into a String and viceversa. ",
  "//",
  "// ------------ I/O -------------",
  "//",
  "// Since io operations can fail by definition and we said the nothing does not exist,",
  "// the methods of std::io library return always the type Result<T, E>.",
  "// To guarantee the safety of the program the programmer should test the value of a result before",
  "// using it. The method Result::is_ok() return true if the operation succeeded.",
  "// The method Result::unwrap() return the value if the operation succeeded and panics if not.",
  "//",
  ""
]

/-- Verbatim line-by-line content of src/bin/4-composite_types.rs (192 lines). -/
def file_4_composite_types : List String := [
  "// ------------ Composite types -------------",
  "//",
  "// In C and C++ the struct keyword allows to create new types that contain group",
  "// of fields, each one opened to external usage. In C++ is possible to associate methods",
  "// to an instance of the struct or to a specific type. In C++ is also possible to create classes,",
  "// which are composed by different fields as the struct but classes allow to modify the visibility",
  "// of each field specifying if the fields are usable only by instances of the same class",
  "// (private), by instances of the same class and its subclasses (protected) or if every other",
  "// portion of code can access class fields (public), the same is valid for class methods.",
  "//",
  "// Another feature of C and C++ regarding composite types is that in each one of these languages is",
  "// possible to define additional structures called enum and union.",
  "// The enum type defines a set of constants that get associated with integers. From C++11 onwards",
  "// is possible to associate the constants with other scalar types like char, short, etc...",
  "// The union type defines a group of fields that will be either represented by the union type.",
  "// The union type takes an amount of memory that is equal to the largest field type.",
  "//",
  "// ------------ Composite types in Rust ------------",
  "//",
  "// As his ancestors Rust allows to represent composite types defining new composite types using",
  "// keywords like struct, union and enum.",
  "//",
  "// ------------ Struct declaratinos in Rust -------------",
  "//",
  "// A struct is a collection of eterogeneous values as fields, to create a new struct the name of",
  "// the struct, the name of",
  "// the fields and their types have to be specified.",
  "// For convention struct names are written in CamelCase.",
  "// For example the declaration of the Point struct is:",
  "// struct Point \x7b x: i32, y: i32 \x7d",
  "//",
  "// His instances are generated in either one of these ways:",
  "//",
  "// 1. Initializing each field: \"let point1 = Point \x7b x: 0, y: 0 \x7d;\"",
  "// 2. Using fields from another struct instance of the same type: \"let point2 = Point \x7b x: 1, .. point1 \x7d;\"",
  "// This method creates a new instance that has as fields the same values of the previously passed",
  "// struct and then ovverrides the fields with the values passed in the constructor. Note that is",
  "// also possible to create new instances not passing any value but an instance of the struct of the same type.",
  "// 3. Using a defined function called constructor:",
  "// impl Point \x7b",
  "//     fn new(x: i32, y: i32) -> Point \x7b",
  "//          println!(\"This is a custom constructor!\");",
  "//          Point \x7b x, y \x7d",
  "//     \x7d    ",
  "// \x7d",
  "// ",
  "// The struct values are accessed from the instance using the dot operator:",
  "// \"let instance = Point \x7b x: 1, y: 2 \x7d;",
  "// instance.x = 2;",
  "// assert_eq!(instance.x, 2);\"",
  "//",
  "// Is also possible to create structs without using names for fields using a declaration of this",
  "// type:",
  "//",
  "// \"struct Point (i32,i32);\"",
  "//",
  "// In this way the rappresentation in memory is similar a tuple and the fields can be accessed with",
  "// the dot operator followed by the index of the order in which the fields are declared, with the exception ",
  "// that in tuple is not possible to define methods for a tuple. Is also possible to define empty",
  "// struct in this way:",
  "//",
  "// \"struct Empty ();\"",
  "// ",
  "// Both struct and struct fields visibility can be set to public or private, the default value is private and",
  "// prefixing a field name with pub it changes to public visibility.",
  "// This mechanism allows to make the struct hidden to outside of its module and its submodules.",
  "// A struct that has private visibility to be useful tho should have methods that are accessible",
  "// publically.",
  "//",
  "// ------------- Struct representation in memory in Rust --------------",
  "//",
  "// The representation of structs in memory is not predictable since the compiler operates on the",
  "// allocatable memory to align fields size to a power of 2.",
  "// Using constructs of the language is possible to align manually the fields specifying a padding",
  "// (a number of bytes) that have to be interposed between the fields.",
  "// In particular is possible to impose the same representation in memory of the padding between the",
  "// fields that C uses. This is done specifying an attribute before the struct declaration:",
  "//",
  "// #[repr(C)]",
  "// struct Person \x7b name: String, age: u8 \x7d",
  "//",
  "// The size of a value or of an instance of a struct can be obtained with function \"std::mem::size_of_val()\"",
  "// also the alignment can be known with \"std::mem::align_of_val()\".",
  "// ",
  "// -------------- Struct methods in Rust ----------------",
  "// ",
  "// In Rust it is possible to define methods for structs using the impl keyword followed by",
  "// curly parenthesis.",
  "// Within the block defined by the parenthesis the methods are defined as ordinary functions with",
  "// the exception of the possibility to include between their parameters the self parameter.",
  "// The self parameter is used to access the struct fields.",
  "// Functions that use the self parameter or pointers to it are called methods.",
  "// Following the ownership rules a function that wants to take ownership of the struct itself uses",
  "// the \"raw\" self parameter (very rare since taking ownership within a struct method means inhibit the usage of struct to methods that are called after this method call) while methods that return metadata based on the struct fields, fields values or reference to the fields values use the \"self\" parameter with an immutable reference to the struct a.k.a. &self.",
  "// Methods that want to modify the fields instead take as parameter a mutable reference to the struct",
  "// a.k.a. &mut self.",
  "//  ",
  "// Examples:",
  "//",
  "// \"struct Point \x7b",
  "//  x: i32,",
  "//  y: i32,",
  "// \x7d",
  "// ",
  "// impl Point \x7b",
  "// fn mirror(self) -> Self \x7b // Consumes the struct Point itself and returns a new struct of the",
  "// same type and with the same values",
  "//  Self\x7b x: self.y, y: self.x \x7d",
  "// \x7d",
  "//",
  "// fn length(&self) -> i32 \x7b // Returns a value computed on the struct fields",
  "//  (self.x*self.x + self.y*self.y).sqrt(self.x*self.x + self.y*self.y)",
  "// \x7d",
  "// ",
  "// fn scale(&mut self, s: i32) \x7b // Modifies the struct fields",
  "//  self.x *= s;",
  "//  self.y *= s;",
  "// \x7d",
  "// \x7d",
  "//",
  "// let p = Point \x7b x: 3, y: 4 \x7d;",
  "// let p2 = p.mirror();",
  "// assert_eq!(p2.x, 4);",
  "// assert_eq!(p2.y, 3);",
  "// ",
  "// let p3 = p.length();",
  "// assert_eq!(p3, 5);",
  "// ",
  "// let mut p4 = Point \x7b x: 3, y: 4 \x7d;",
  "// p4.scale(2);",
  "// assert_eq!(p4.x, 6);",
  "// assert_eq!(p4.y, 8);",
  "// \"",
  "//",
  "// In Rust a concept different from C++ is the absence of constructors, even if for convention a",
  "// function new() is defined within the struct implementation, in Rust constructors by default",
  "// are not defined. The construction of the struct is not relegated to the implementation of",
  "// the struct, it can be done outside of it and it can be done by as many functions as needed.",
  "// Things as the multiple constructors in C++ are realized using simple functions with different",
  "// names.",
  "//",
  "// Examples:",
  "//",
  "// \"pub fn new() -> Self \x7b...\x7d",
  "//  pub fn with_details(...) -> Self \x7b...\x7d\"",
  "//",
  "// Same as constructors things as the destructors in C++ are not implemented in the same way in",
  "// Rust, they are not defined in the struct implementation. In Rust when an instance of a variable",
  "// (which can be a struct) goes out of scope, the std::mem::drop method is invoked to release the",
  "// memory. A way in which Rust allows to customize the operation to execute on destruction is to ",
  "// add a Drop trait to the struct and define the drop method.",
  "//",
  "// Examples:",
  "//",
  "// \"struct Person \x7b",
  "//   name: String,",
  "//   age: u8,",
  "// \x7d",
  "//",
  "// impl Drop for Point \x7b",
  "//   fn drop(&mut self) \x7b",
  "//     println!(\"Dropping \x7b\x7d\", self.name);",
  "//     std::mem::drop(self);",
  "//   \x7d",
  "// \x7d\"",
  "//",
  "// A constraint that is applied to this Drop trait implementation is that is possible to",
  "// implement it only if the fields of the struct are not all primitive types / the struct cannot",
  "// already implement the Copy trait. This comes as simplification of the code and also a security feature.",
  "// This implies drop methods cannot be redefined for primitive types.",
  "// ",
  "// In C++ is possible to define static methods in classes, which are functions that can be called",
  "// outside of an instance of the class itself. In Rust the analog functionality is realized on each",
  "// function inside the impl block that does not have the self parameter.",
  "//",
  "// --------------------- Enums in Rust --------------------",
  "//",
  "// In Rust enums are more powerful of C and C++ since they allow to bind each constant not only",
  "// with primitive types but also composite types, furthermore for enums can be implemented methods",
  "// as for structs.",
  "// Rust provides a useful construct called match that can be used to match an enum value to execute",
  "// an arbitrary block of code.",
  "// The memory that enum takes is equal to the largest size of the enum values associated by constants.",
  "// On default enum constants are mapped to u8 numbers.",
  "//",
  "// --------------------- Unions in Rust ---------------------",
  "// ",
  "// Unions in Rust are used to represent data types that have optional values.",
  "// Their representation in memory is equal to the largest field type size.",
  "// Unions can have methods in the same way enums do.",
  "// Litterally unions have same utility of enums while enum provide modern and better features.",
  ""
]

/-- Verbatim line-by-line content of src/bin/5-traits_generics.rs (171 lines). -/
def file_5_traits_generics : List String := [
  "// ---------------- Traits ----------------",
  "// Often in programming is needed to minimize the code written or the size of a program.",
  "// Many languages attempt to give ways to programmers to implement common functions that can be",
  "// reused even changing a minimal portion of the code itself.",
  "// Usually languages like Java, Javascript and others use interfaces, which are constructs that",
  "// contain set of methods, the classes can then implement these interfaces and use them in the",
  "// program (one or more methods can be overridden). Also classes can extend other classes. This behaviours are called respectively inheritance and polymorphism.",
  "// Languages like C++ can implement polymorphism using virtual functions and virtual tables and",
  "// allow to extend classes multiple times.",
  "//",
  "// Rust provides to a assolve this needing providing traits. The traits are a set of methods.",
  "// They can be used in multiple classes. They can be overridden and derived from the parent class",
  "// (inheritance). Differently from C++ they do not imply normally an additional memory cost.",
  "// This additional cost kicks in when an object is referenced by his trait and his type has to be",
  "// determined at runtime.",
  "//",
  "// --------------- Traits syntax ----------------",
  "// ",
  "// To define a trait is necessary to use the following syntax:",
  "//",
  "// trait Name \x7b",
  "//     method1();",
  "//     method2();",
  "//     method3();",
  "//     ...",
  "// \x7d",
  "//",
  "// The return type of a method is mandatory, otherwise it will be assumed is ().",
  "// When the keyword Self is used as parameter or return value the type is inferred as the one of",
  "// the data structure that implements the trait.",
  "// As in data structures implementations, if the parameter self is not set within the function",
  "// within the trait, that function will be static and so it will be available without instances of",
  "// the trait.",
  "// Example:",
  "//",
  "// trait Name \x7b",
  "//     method1();  ",
  "// \x7d",
  "//",
  "// fn main() \x7b",
  "//   Name::method1();   ",
  "// \x7d",
  "// ",
  "// Rust allows to use type aliases to implement traits. Their usage is limited to the code readability.",
  "// ",
  "// Example:",
  "//",
  "// trait Name \x7b",
  "//     type NumberWithSign = i32;",
  "//     method1(arg: NumberWithSign);",
  "// \x7d",
  "//",
  "// Since traits are pretty popular in rust it is possible to make traits that implement already",
  "// existing traits, avoiding so to write already existing code.",
  "// The trait that implements another trait is called subtrait while the implemented trait is the",
  "// supertrait. Implementing a subtrait on a data structure requires also to implement the",
  "// supertrait.",
  "//",
  "// -------------- Traits implementation ----------------",
  "//",
  "// To make so that a data structure like a struct or an enum implements the methods of the trait",
  "// there are 2 approaches:",
  "//",
  "// 1. use the keyword impl:",
  "//",
  "// impl Name for Type \x7b",
  "//     method1() \x7b",
  "//         // do something if want to override",
  "//     \x7d    ",
  "//",
  "//     method2(); // do nothing if want to inherit the method as it is",
  "//",
  "//     // note that not specifing a function it gets the default implementation",
  "//     // method3() is imported as declared in the trait",
  "// \x7d",
  "//",
  "// 2. use the attribute #[derive] if the data structure has all the fields in it already",
  "//    implementing the trait:",
  "// ",
  "// #[derive(Name)]",
  "// struct Type \x7b",
  "//     ...",
  "// \x7d",
  "// ",
  "// If the type of a data structure that implements a given trait is known by the compiler, the",
  "// trait methods will be used without any time penalty, this is known as static invocation.",
  "// It is also possible to reference an object by the trait it implements, this is known as dynamic",
  "// invocation.",
  "// For example inside a function specify that one of the arguments has not a specific type but",
  "// implements a known trait:",
  "//",
  "// fn method(arg: &dyn Name) \x7b",
  "//     // do something",
  "// \x7d",
  "//",
  "// The references to a trait are commonly called object-trait.",
  "//",
  "// ------------- Standard traits ----------------",
  "// ",
  "// Rust has many standard traits that are already implemented in primitive types and as seen ",
  "// can be implemented as supertraits to our new traits. So it is useful to know a bunch of the",
  "// common used traits of the standard library:",
  "//",
  "// - Eq, PartialEq, Ord, PartialOrd: to compare values with operators like ==, !=, <, >, <=, >=",
  "// - Add, Sub, Mul, Div, Rem, BitAnd, BitXor, Shl, Shr, Neg, Not: respectively allow a type to add, subtract, multiply, divide, remainder, bitwise, shift operations, invert the sign, make the logical not of the bits.",
  "// - Display, Debug: to convert a type into a string",
  "// - Copy, Clone: to make a type copyable",
  "// - Drop: to make a type droppable, is esclusive on types with the Copy trait.",
  "// - Index, IndexMut: to index a data structure as an array.",
  "// - Deref, DerefMut: to access a value from his pointer.",
  "// - RangeBounds: to iterate over a range of values of the type with a syntax like",
  "// ..5,1..,1..5,1..=5.",
  "// - From, Into: allow to cast the type, when one of the two traits is implemented the other gets",
  "// inherited automatically.",
  "// - TryFrom, TryInto: same as From and Into but return a Result since the operation can fail.",
  "// - FromStr: derives the tryfrom and allows to cast a string to the type that implements it,",
  "// returns a result since can fail.",
  "// - Error: is a trait that is used to perform error logging when a result contains a failure of an",
  "// operation. To pass a custom error when our code fails we need to implement it as supertrait.",
  "//",
  "// ---------------- Generics ----------------",
  "//",
  "// Types allow robustness of the code defining which operations are possible and which not.",
  "// Since each type can have a different set of operations allowed this will need a lot of code.",
  "// Rust allows to define generic types to reduce the amount of code that need to be written for",
  "// defining an operation for multiple types. This mechanism is called generics.",
  "//",
  "// The signature of a function that operates on generics contains a letter that will indicate the",
  "// generic type.",
  "//",
  "// \"fn add<T>(arg1: T, arg2: T) -> T\"",
  "//",
  "// To define a constraint over the generic type we coherce it to implement a specific trait:",
  "//",
  "// \"",
  "//   fn max<T: PartialOrd>(arg1: T, arg2: T) -> T \x7b",
  "//     if arg1 > arg2 \x7b",
  "//         arg1",
  "//     \x7d else \x7b",
  "//         arg2",
  "//     \x7d",
  "// \"",
  "//",
  "// This can be done in the same way to include generics within data structures:",
  "//",
  "// struct MyStruct<T> where T: Display \x7b",
  "//  foo: T",
  "// \x7d",
  "// ",
  "// ---- Note that MyStruct<T: Display> is the same as MyStruct<T> where T: Display ----",
  "//",
  "// impl<T> struct MyStruct<T> where T: Display \x7b",
  "//  print(&self) \x7b",
  "//      println!(\"\x7b\x7d\", self.foo);",
  "//  \x7d",
  "// \x7d",
  "//",
  "// ----------------- Summary for Traits and Generics ----------------",
  "//",
  "// Traits define a set of methods for a type.",
  "// Generics define a type 0...all of his traits.",
  "// Generics shouldn\'t be used if not for defining a method that should exist on many types or a",
  "// function that takes arguments or returns values of many types.",
  "// Generics when used in this way bring efficiency to the compiler, since they allow to define",
  "// methods without moving on a VTable of a trait.",
  "// Not all the traits allow the definition of object-traits, it\'s allowed to use dynamic invocation",
  "// of traits in methods only if the trait doesn\'t contain any static function (without self, &self,",
  "// &mut self).",
  "// But it is possible to define an object-trait that implements multiple traits (they do not have",
  "// to be subtraits of each other tho).",
  ""
]

/-- Verbatim line-by-line content of src/bin/6-lifetimes.rs (150 lines). -/
def file_6_lifetimes : List String := [
  "// ------------- Lifetimes -------------",
  "//",
  "// If a function receives a reference as parameter (mutable or not), the lifetime of the reference",
  "// passed becomes part of the function signature.",
  "// Is in fact needed that operations on the reference are done only while the reference has a valid",
  "// value.",
  "//",
  "// Syntax:",
  "//",
  "// fn function_name<\'a>(parameter_name: &\'a type) \x7b",
  "//     // code",
  "// \x7d",
  "//",
  "// The compiler infers this syntax most times autonomously when the code is compiled.",
  "// If more than one reference tho, is passed as argument can be necessary to specify if their",
  "// lifetimes are bounded to the one which is shorter or if their lifetimes are independant.",
  "//",
  "// Syntax of the code inferred in the two cases:",
  "//",
  "// 1. fn function_name<\'a>(p1: &\'a type, p2: &\'a type) \x7b\x7d",
  "//",
  "// 2. fn function_name<\'a, \'b>(p1: &\'a type, p2: &\'b type) \x7b\x7d",
  "//",
  "// In the case the function operates on generics the metavariables (T,...) are specified in the",
  "// signature after the lifetimes.",
  "// One of the common usage of this notations in which the compiler is not able to infer the correct",
  "// lifetimes is when the function receives two references as parameters (with different lifetimes) and returns a reference extracted by one of the two:",
  "//",
  "// fn function_name<\'a, \'b>(p1: &\'a type, p2: &\'b type) -> &\'a type \x7b",
  "//     // code",
  "// \x7d",
  "//",
  "// or",
  "//",
  "// fn function_name<\'a, \'b>(p1: &\'a type, p2: &\'b type) -> &\'b type \x7b",
  "//     // code",
  "// \x7d",
  "//",
  "// If the function saves into a local variable one of the references, the compiler is also able to",
  "// infer the lifetime of the local variable to the lifetime of the reference.",
  "// If the compiler is not able to do it, due to a variable derived from references with different",
  "// lifetimes the compiler will raise an error, urges to the programmer to annotate the variable",
  "// with the shorter lifetime.",
  "//",
  "// The usage of lifetimes allows both the function caller to know the lifetimes required for the",
  "// parameters and the lifetime of the return value and to the function writer to understand when is",
  "// a valid operation to access references. The compiler would not allow to do the opposite.",
  "// Annotating the references will result in the compiler checking that the references are valid for",
  "// the duration of the function and during that time that the value of the reference is not",
  "// changed.",
  "//",
  "// The same is true for structs declaration.",
  "//",
  "// Example:",
  "//",
  "// struct Point \x7b",
  "//  x: &i32,",
  "//  y: &i32",
  "// \x7d",
  "//",
  "// fn scale(r: &i32, p: Point) -> i32 \x7b",
  "//  r * (p.x * p.x + p.y * p.y)",
  "// \x7d",
  "//",
  "// !!! This will not compile !!!",
  "// Since either the structs declarations should specify that the struct lives for the same time of",
  "// the fields the correct version keeping the rules for functions too is:",
  "//",
  "struct<\'a, \'b> Point \x7b",
  "    x: &\'a i32,",
  "    y: &\'b i32",
  "\x7d",
  "",
  "fn scale<\'a, \'b, \'c>(r: &\'c i32, p: Point<\'a,\'b>) -> i32 \x7b",
  "    r * (p.x * p.x + p.y * p.y)",
  "\x7d",
  "//",
  "// For struct methods (functions that implement self or its references as parameters) that return",
  "// references by default",
  "// the compiler will assume that the return value has the same lifetime as the self parameter if",
  "// the programmer wants to return a reference that has a shorter lifetime because it comes from another",
  "// parameter with a shorter lifetime it should specify it annotating with lifetimes.",
  "//",
  "// ----------------------- Closures/ Lambda\'s -----------------------",
  "//",
  "// Functional programming has introduced a concept of functions of superior order a.k.a.",
  "// functions that have as parameter or return value a function.",
  "// This requires that a language that wants to implement the concept of higher-order",
  "// functions (functions of superior order) must deal with functions as if they are data types.",
  "// In C this is achievable using pointers to functions that to the function that returns them are",
  "// simply pointers. In C++ is possible to make so that a function can be directly assigned to",
  "// variables.",
  "// In Rust is possible to assign the pointer to a function to a variable or assign a value that has",
  "// one of this traits: Fn, FnMut, FnOnce.",
  "//",
  "// In the first case (assigning to a variable the pointer to a function), the variable becomes",
  "// itself a function.",
  "",
  "fn function(i: i32, d: f64) -> f64 \x7b",
  "    return i as f64 * d",
  "\x7d",
  "",
  "let ptr: fn(i32, f64) -> f64;",
  "ptr = function;",
  "ptr(10, 2.0);",
  "",
  "// In C++ is possible to add a third kind of usage of functions as superior order.",
  "// Is possible to allow classes to behave like functions, defining the function behaviour to the",
  "// operator method of the class.",
  "// Is it possible to define multiple operator methods in the class using different parameters for",
  "// each declaration so that this can be distinguished when called.",
  "// This implies within the operator methods member variables can be accessed, so that this",
  "// behaviour is not really a function anymore.",
  "// This third implementation in C++ is called functional-objects or functors.",
  "//",
  "// A version commonly used in various languages that tries to replicate the functional-objects",
  "// behaviour reducing the ammount of code needed to implement it is lambda functions.",
  "// In C++ lambda functions are defined as:",
  "//",
  "// [v] (int i) \x7b return i+v; \x7d",
  "//",
  "// In Rust lambda functions are defined in this way:",
  "//",
  "// |v| \x7b v + 1 \x7d",
  "//",
  "// parameters are defined between || separated by commas and the function code is defined within",
  "// the curly brackets. Lambdas follow all the patterns related to an object while being essentially",
  "// code. So they can be assigned to variables, passed or returned to and from functions.",
  "// Also they can take ownership or borrow variables from the scope in which are defined.",
  "// When this happens these lambda are called closures since the close within them a reusable copy",
  "// of a value.",
  "// When then code compiles Rust compiler maps each closure to a tuple that must implement on of the",
  "// previously announced traits: Fn, FnMut, FnOnce.",
  "// ",
  "// In C++ closures can take or borrow values in one of these ways:",
  "// - Taking the value, [v] (i) \x7b return i+v; \x7d",
  "// - Borrowing the value, [&v] (i) \x7b return i+v; \x7d",
  "// - Capturing values in both ways: [&v, x] (i) \x7b return x+i+v; \x7d",
  "//",
  "// In Rust closures borrow by default the values, and has to be specified with the move keyword if",
  "// the value has to be taken.",
  "//",
  "// The three traits illustrated before define behaviours for the closure:",
  "// 1. A closure that takes the value must be called only one time and must implement the FnOnce.",
  "// 2. A closure that should update an internal status represented by a referenced value must",
  "//    implement the FnMut.",
  "// 3. A closure that can take or borrow values must implement the Fn.",
  "//",
  "// Using the closures as illustrated is possible to implement functions or high order of any type.",
  ""
]

/-- Verbatim line-by-line content of src/bin/7-errors.rs (94 lines). -/
def file_7_errors : List String := [
  "// -------------- Errors ---------------",
  "// ",
  "// All computation can fail prematurely. Making so that an attended value is not returned or that some collateral effect is not executed. This failures can be due to different causes:",
  "//",
  "// - Illegal arguments, failed conversion, etc;",
  "// - Resource exhaustion (memory, disk or network related issues);",
  "//",
  "// Indipendently from the causes of a failure, they can be classified as recoverable or",
  "// unrecoverable.",
  "// In the case of an unrecoverable failure, the program should terminate with an error message.",
  "// In the case of a recoverable failure, the program should continue with the execution after",
  "// recovering the state from the failure, recovering implies a strategy as reattempt the operation,",
  "// require admin privileges or other strategies.",
  "//",
  "// Often happens that recoverable errors are raised in lines of code where there is not enough",
  "// context to determine the strategy to recover so is needed that any programming language allows",
  "// the developer to return the error to the caller of the function.",
  "// This inevitably introduces complexity in the program, adding new branches (if/else, switch/case,",
  "// match...) along the computation can continue but favouring logical errors trying to fix the",
  "// ones that were raised in the first place. Therefore in modern languages the concept of",
  "// exceptions is used to support error handling without adding too much code.",
  "//",
  "// --------------- Syntax in other languages ---------------",
  "// ",
  "// C does not support the developer with any construct to handle errors.",
  "// C++ like many others (Java, C#, Javascript, ...) allows the developer to use exceptions.",
  "// These construct offers the keywords `try`, `catch` and `throw` to define code blocks that",
  "// respectively are executed always (but not completely if an error occurs), when an error is",
  "// matched and when an error is thrown.",
  "//",
  "// --------------- Syntax in Rust ---------------",
  "// ",
  "// Rust utilizes Result and Option generic types to map both the success and failure of an",
  "// operation and the presence or not of a result. Furthermore, it makes available the macro",
  "// panic!(...) (which acts like println!()) to force the program termination with a specific error",
  "// message.",
  "//",
  "// RECOVERABLE ERRORS",
  "// Returning to the old problem of giving a context to the recoverable errors, Rust takes the",
  "// approach of C++ of catch keywords to handle errors proposing a version not based on exceptions",
  "// but using a type system based on the extension or the basic Error type. Since errors are data",
  "// types they can be inspected using match or if let. That are useful with Result and Option since",
  "// they are implemented as enums. These data structures also implement methods to get result values",
  "// or errors if they exist like \"is_ok()\", \"is_err()\", \"ok()\", \"err()\". Or if a recovery strategy",
  "// has to be implemented based on the error functions like \"map()\" and \"contains()\" are useful to",
  "// this scope.",
  "//",
  "// UNRECOVERABLE ERRORS",
  "// If no strategy has to be implemented \"unwrap()\" is used to extract the result or",
  "// fails exiting the program. The termination of the program should still do some kind of behaviour",
  "// when an error occurs. Even if the error is not recoverable, the program should exit releasing",
  "// all the resource acquired to not determine malfunctions in end-user system (Like memory leaks,",
  "// file corruption, etc).",
  "// So Rust expects the programmer binding this release operations while the data is released using",
  "// the Drop trait. Panicing a program still executes drop operations for the data in the opposite order the scopes were created.",
  "//",
  "// Sometimes is possible to ignore some errors, cause they are already prevented but a specific",
  "// library for example returns still a Result type. This can be done using the \"except()\" method",
  "// which allows to print a specific error message while not exiting.",
  "//",
  "// REDUCING THE COMPLEXITY OF ERROR HANDLING",
  "// Rust offers a convinient operator to explain the compiler the correspective or the unwrap",
  "// function, which is the ? operator. This can be used in functions that have Result as return",
  "// type and returns on a line the value contained in the Ok branch of the Result or the error",
  "// contained in the Err branch. Note that the same can be done with Option.",
  "//",
  "// THROWING ETHEROGENEOUS ERRORS",
  "// Since a function can fail in multiple istructions it is possible to enumerate the errors that",
  "// can happen within the function and return through a Result type. This requires to implement an",
  "// enum type for the custom error, putting no each branch the specific error type and than provide",
  "// a way to cast the general enum to each one of these branches (error types). The Error trait",
  "// comes in help defining the From trait which allowes with the method \"downcast_ref()\" to map",
  "// every error to a Box<dyn Error> type.",
  "// Tho our enumeration should implement for now the Error trait, the From trait and obviously",
  "// Display and Debug traits to extract a string to print when the error gets raised.",
  "//",
  "// EXTERNAL CRATES TO REDUCE ETHEROGENEOUS ERRORS COMPLEXITY",
  "// This time to reduce the complexity of this operation external crates can be used.",
  "// ",
  "// FOR LIBRARIES OR DETAILED ERROR HANDLING",
  "// The crate \"thiserror\" allows with macros to derive traits from the Error trait.",
  "// Preceding the error with the attribute \"#[derive(Error, Debug)]\" for example it gets an",
  "// automatic implementation for those traits. Also useful the attribute \"#[error(\"Error message",
  "// string...\")]\" before one of the enum branches specifies the error message to print. Lastly the",
  "// attribute \"#[from]\" before of a branch of the enum implements automatically the cast from the",
  "// specific error to the more general Box<dyn Error> type.",
  "// ",
  "// FOR APPLICATIONS",
  "// If is not needed to provide a specific implementation of an etherogeneous error type, the crate \"anyhow\" can be used to return a specific Result type defined within the crate that offers methods like \"context(...)\" and \"with_context(...)\" to specify respectively message errors to print in case of errors without a variable or with it.",
  "// For example if an error message contains a value produced at runtime this should be printed",
  "// using the with_context method providing a lambda function that takes as argument the runtime",
  "// value and returns a string while if the message error doesn\'t contain any runtime value can be",
  "// implemented with context method passing it directly the string to print.",
  ""
]

/-- Verbatim line-by-line content of src/bin/8-collections.rs (121 lines). -/
def file_8_collections : List String := [
  "// ------------- Collections -------------",
  "//",
  "// All the programming languages offer in their respective standard library, a set of data",
  "// structures that can be used to store information efficiently with state of the art coding ",
  "// techniques without reimplement them for each program.",
  "// ",
  "// If these data structures have multiple possible implementations (each one with advantages for a",
  "// specific problem) then they are included in the standard library.",
  "//",
  "// Is tho responsibility of the developer to understand which collection fits best the kind of",
  "// problem he is facing.",
  "//",
  "// ------------- Collections in Rust -------------",
  "//",
  "// Rust implements several data structures in the standard library like:",
  "//",
  "//   Data structure, Description, Access Complexity, Search Complexity, Insertion Complexity,",
  "//   Cancel Complexity",
  "// - Vec, a dynamic list of elements that grows from the end, O(1), O(n), O(n), O(n)",
  "// - VecDeque, a list with efficient insertion and removal at both ends, O(n), O(n), O(1), O(1)",
  "// - LinkedList, a list with efficient insertion and removal at both ends and each node has access",
  "// to his predecessor too, O(n), O(n), O(1), O(1)",
  "// - BinaryHeap, a priority queue, O(1), -, O(log(n)), O(log(n)) ",
  "// - HashMap, a hash table, O(1), O(1), O(1), O(1)",
  "// - BTreeMap, an ordered map, O(log(n)), O(log(n)), O(log(n)), O(log(n))",
  "//- HashSet, an unordered set, -, O(1), O(1), O(1)",
  "// - BTreeSet, an ordered set, -, O(log(n)), O(log(n)), O(log(n))",
  "//",
  "// Each of these data structures provides the following methods:",
  "//",
  "// - new, to allocate in the heap a new collection",
  "// - len, to get the number of elements",
  "// - clear, to remove all the elements",
  "// - is_empty, to check if the collection is empty",
  "// - iter, to iterate on the elements contained in the collection",
  "//",
  "// Also all the data structures implement the following traits:",
  "//",
  "// - IntoIterator",
  "// - FromIterator",
  "//",
  "// Consequently having the methods into_iter() and collect() to cast a collection into and from a ",
  "// iterator respectively.",
  "//",
  "// --------------- Vec ---------------",
  "//",
  "// The Vec data structure is a dynamic list of elements that grows from the end.",
  "// It is represented has a tuple with 3 private fields.",
  "// A pointer to the starting memory address.",
  "// An integer without sign to indicate the length of the memory allocated.",
  "// An integer without sign to indicate how many elements are currently in the vec itself.",
  "// Is the standard way to use collections.",
  "//",
  "// METHODS AND OPERATIONS:",
  "// push(), inserts a new element at the end, if the memory is not enough the buffer will be",
  "// reallocated and the element added then to the end.",
  "// &vec_name[i], get(i) and get_mut(i) allows to get an option containing if succeded a reference to the content of the vec at the",
  "// i-th element.",
  "// pop(), removes and returns the last element.",
  "// insert(index, value), inserts the value at the index position.",
  "// first() and first_mut(), return a reference to the first element.",
  "// last() and last_mut(), return a reference to the last element.",
  "// get(range) and get_mut(range) return an option to a slice in the range specified.",
  "//",
  "// --------------- VecDeque ---------------",
  "//",
  "// The VecDeque models a queue extensible from the start and/or from the end.",
  "// It gets allocated on the heap.",
  "// Differs from the Vec since the methods to get references to the elements at the ends are called",
  "// push_front(value), pop_front(), push_back(value), pop_back().",
  "// It\'s useful if is needed a big number of operations on the first element of the queue.",
  "// It\'s a circular buffer and gets allocated on different addresses, to make it allocate only",
  "// contigous memory use make_contiguous().",
  "//",
  "// --------------- LinkedList ---------------",
  "//",
  "// The LinkedList data structure is allows to store elements on the heap and access them in any",
  "// order starting from whatever element.",
  "// It\'s substancially a sub-structure of Vec and VecDeque and so is almost always not preferrable",
  "// to the two. It can be advantageous if used in concurrent environments.",
  "//",
  "// --------------- HashMap ---------------",
  "//",
  "// The HashMap data structure allows to store elements in a hash table and access them in any order",
  "// by their keys. It is allocated in the heap but not in contigous memory, also can be reallocated",
  "// and the address then can change at runtime when a new pair is inserted.",
  "//",
  "// --------------- BTreeMap ---------------",
  "//",
  "// Is a collection of pairs on the heap that have keys organized in a binary tree.",
  "// The type of the keys must have the trait Ord implemented. As the HashMap is position in memory",
  "// can change at runtime.",
  "//",
  "// --------------- Entry ---------------",
  "//",
  "// Is the Rust enum representation of the single pair within the HashMap and the BTreeMap.",
  "// It can be used as a way to effectively reduce code written since implements methods as",
  "// and_modify() and or_insert() than on a reference would be able to work only evaluing the",
  "// borrowing rules correctly and doing all the needed checks. An entry can be accessed using the",
  "// entry(key) method on one of the previous illustrated maps.",
  "//",
  "// --------------- HashSet ---------------",
  "//",
  "// Is a collection of elements on the heap that has the same properties as the HashMap.",
  "// It is structured as a wrapped of the HashMap with the logical correspondant of a HashMap<V, ()>.",
  "// Is convienient if want to use an hashmap in which there are no duplicates.",
  "//",
  "// --------------- BTreeSet ---------------",
  "//",
  "// Is a wrapper for BTreeMap<V, ()> and has the same properties as the HashSet. Is useful",
  "// if no duplicates are allowed.",
  "//",
  "// --------------- BinaryHeap ---------------",
  "//",
  "// Is a priority queue that uses the elements ordered so that after each insertion the greatest",
  "// element is always at the first position. The first element can be accessed with the method",
  "// peek() or peek_mut().",
  "// The type of the elements inserted must implement the trait Ord.",
  "//",
  "//",
  ""
]

/-- Verbatim line-by-line content of src/bin/9-input_output.rs (151 lines). -/
def file_9_input_output : List String := [
  "// ----------------- Input and Output -----------------",
  "//",
  "// Files are abstractions that represent a block of memory binded to a name.",
  "// Each operative system provides a file system as a tree or files and folders.",
  "// A path is a string of the concatenation of the folder locations and the name of the file.",
  "// Each operative system also defines a system of privileges that establishes permissions to read,",
  "// write and execute files for different users of the operative system.",
  "// Programming languages offer libraries (often in the standard library) to execute actions on the",
  "// file system transparently without knowing the operative system in which the code will be",
  "// executed.",
  "//",
  "// Rust provides an abstraction for files in the standard library (std::fs::File).",
  "// Also C++17 introduced it in std::filesystem library.",
  "// Previously C++ could allow to use this definitions using experimental or boost versions of the",
  "// language.",
  "//",
  "// ------------------ Paths -------------------",
  "//",
  "// Each OS has a definition for which is the folder containing the entire filesystem and",
  "// how folders should be concatenated to be a valid path.",
  "// Rust provides two data structures to represent paths: Path and PathBuf.",
  "// The Path struct represents a valid path to a file or directory that is only readable",
  "// using as internal data structure the str.",
  "// The PathBuf struct represents a path that is modifiable concatenating more names to the path and",
  "// is internally represented by a String.",
  "// Both this types allow to read files and folders metadata as dimensions, creation time, last",
  "// modification time, permissions and more, as well as reading the type of the pointed element by",
  "// the path file, folder, link to something.",
  "//",
  "// The std fs library provides methods to operate on the file system as:",
  "// - read_dir(&Path) -> Result<ReadDir>, which allows to read the content of a folder returning if",
  "// succeded a type readdir which is an iterator composed by DirEntry that can be either file, folder",
  "// or link.",
  "// - create_dir(&Path) -> Result<()>, which allows to create a folder in the path.",
  "// - remove_dir(&Path) -> Result<()>, which removes the specified folder checking if is empty and",
  "// the current user has permissions to delete it.",
  "// - copy(from: &Path,to: &Path) -> Result<i64>, which copies the content of a file from one path",
  "// to another and returns the number of bytes written.",
  "// - rename(from: &Path,to: &Path) -> Result<()>, which renames/moves a file from one path to another.",
  "// - remove_file(&Path) -> Result<()>, which removes a file from the path.",
  "//",
  "// Furthermore, the std fs library contains methods to create an instance of a file handler which",
  "// is required at execution time to cooperate with actual file system in use. The methods are:",
  "//",
  "// - File::open(path) -> Result<File>, which opens a file in read-only mode.",
  "// - File::create(path) -> Result<File>, which creates a file in write-only mode.",
  "//",
  "// Is possible to open files with rights to write or execute using another type in the std::fs",
  "// library called OpenOptions.",
  "//",
  "// The operations available on files are generally comparable to the std::fs methods:",
  "//",
  "// - read_to_string(path: &Path) -> Result<String>, which reads the content of a file and returns it as",
  "// a string.",
  "// - write(path: &Path, contents) -> Result<()>, which writes the content of a string to a file.",
  "//",
  "// ---------------------- IO Prelude ----------------------",
  "//",
  "// The fs library implementation is based largely on the std::io library which contains type, data",
  "// structures and methods not only to interact with the file system but also with internet and",
  "// other peripherals.",
  "//",
  "// The whole set of methods and type available in the fs library is based on the implementation of",
  "// the traits: Read, BufRead, Write and Seek. Their declaration is contained in std::io::prelude.",
  "//",
  "// The errors which will be produced by previously described fs methods are based on the enum std::io::ErrorKind which can",
  "// assume values as Interrupted, NotFound, PermissionDenied, etc.",
  "// ",
  "// Traits as Read, Write and BufRead are implemented by many types of rust libraries such as Stdin,",
  "// File, TcpStream, Stderr, BufReader, BufWriter and many more.",
  "//",
  "// READ",
  "// To implement the std::io::Read trait the read(buf: &mut [u8]) -> Result<usize> method must be",
  "// implemented. Once this is done the type which has the Read trait implemenented will be able to",
  "// use methods as:",
  "//",
  "// - read_to_string(buf: &mut String) -> Result<usize>, which reads the content and returns the",
  "// number of bytes red or an error.",
  "// - read_to_end(buf: &mut Vec<u8>) -> Result<usize>, which reads the contents till the buffer is not empty or an error occurs and returns the number of bytes red or an error.",
  "// - read_exact(buf: &mut [u8]) -> Result<()>, which reads exactly the number of bytes specified in the buf argument or an error occurs and returns an empty tuple if succeded or an error if not.",
  "// - bytes() -> Bytes<Self>, which returns an iterator over the bytes.",
  "// - chain<R: Read>(reader: R) -> Chain<Self, R>, which allows to concatenate the current reader",
  "// to another so that they can be then red in sequence.",
  "// - take(limit: u64) -> Take<Self>, which returns an iterator that will take at most the number of limit bytes specified.",
  "//",
  "// BUFREAD",
  "// Is a trait that can be used to read from sources which are not emitting data always at the same",
  "// rate so that the read operations can be invoked at different times to not block the execution of",
  "// the program waiting for the read completion. So it can be useful if reading internet responses",
  "// packets or any asynchronous input sources such as hard drives, network connections or in general io",
  "// devices. So files which are often on the same system where the program is executed can avoid",
  "// using this trait or they can using it if their size is so big that they will block the execution",
  "// of the program to not ruin \"the user experience\".",
  "//",
  "// To implement the std::io::BufRead a type should implement the methods:",
  "//",
  "// - fill_buf() -> Result<&[u8]>, which returns the next bytes to be read.",
  "// - consume(n: usize) -> Result<()>, which consumes the first n bytes of the buffer so that on the",
  "// next read the result will not be the same of the last one.",
  "//",
  "// Once they are implemented the type can use methods:",
  "//",
  "// - read_line(&mut self, buf: &mut String) -> Result<usize>, which reads the line from the buffer",
  "// and returns the number of bytes red or an error.",
  "// - lines(self) -> Lines<Self>, which returns an iterator over the lines of the buffer.",
  "// - has_data_left(&mut self) -> bool, which returns true if the buffer is not empty.",
  "// - read_until(&mut self, byte: u8, buf: &mut Vec<u8>) -> Result<usize>, which reads the content",
  "// until the number of specified bytes.",
  "// - skip_until(&mut self, byte: u8) -> Result<usize>, which skips the content of the buffer until",
  "// the specified number of bytes.",
  "// - split(byte: u8) -> SplitBytes<Self>, which returns an iterator over the bytes of the buffer",
  "// separated by the specified byte.",
  "//",
  "// WRITE",
  "// To implement the std::io::Write trait is required to define for the type the methods:",
  "// - write(buf: &[u8]) -> Result<usize>, which writes the content of the buffer and",
  "// returns the number of bytes written or an error.",
  "// - flush() -> Result<()>, which flushes the content of the buffer.",
  "//",
  "// When done is possible to use methods:",
  "// - write_vectored(&mut self, bufs: &[IoSlice<\'_>]) -> Result<usize> \x7b ... \x7d, which writes the",
  "// conent of the IoSlices to the buffer.",
  "// - is_write_vectored(&self) -> bool \x7b ... \x7d, which specifies if the buffer contains chucks to be",
  "// written.",
  "// - write_all(&mut self, buf: &[u8]) -> Result<()> \x7b ... \x7d, which writes the content of the buffer",
  "// to the destination output.",
  "// - write_all_vectored(&mut self, bufs: &mut [IoSlice<\'_>]) -> Result<()> \x7b ... \x7d, attempts to",
  "// write each IoSlice to the destination output.",
  "// - write_fmt(&mut self, fmt: Arguments<\'_>) -> Result<()> \x7b ... \x7d, attempts to write the",
  "// specified string to the destination output.",
  "// - by_ref(&mut self) -> &mut Self, which returns a reference to the destination output.",
  "//",
  "// SEEK",
  "// Allows to reposition the cursor contained in a buffered reader of writer.",
  "// Is implementable by types implementing the seek method:",
  "//",
  "// - seek(&mut self, pos: SeekFrom) -> Result<u64>, which repositions the cursor in the buffer",
  "//",
  "// Also an enum called SeekFrom has to be imported from std::io.",
  "//",
  "// Using data structures/types that implement Seek allows to use methods as:",
  "//",
  "// - rewind() -> Result<()>, which repositions the cursor to the beginning of the buffer.",
  "// - stream_len() -> Result<u64>, which returns the length of the buffer.",
  "// - stream_position() -> Result<u64>, which returns the current position of the cursor from the",
  "// start of the buffer a.k.a the number of bytes red so far.",
  "// - seek_relative(offset: i64) -> Result<()>, which repositions the cursor by the specified number",
  "// of bytes after the start.",
  "// ",
  "// Most of the BufReader and BufWriter types in the standard library implement Seek.",
  "//"
]

/-- Verbatim line-by-line content of src/bin/10-smart_pointers.rs (115 lines). -/
def file_10_smart_pointers : List String := [
  "// --------------- Smart pointers -------------------",
  "//",
  "// Each value assigned in a program is memorized in the address range of memory of a process.",
  "// Usually in Rust and C++ references allow to get the memory address of the first byte in which",
  "// values gets memorized.",
  "// In Rust using the reference in a program activates the borrow checker to start checking bounds",
  "// to the variables to keep the safety guarantees of Rust.",
  "// The dual operation of getting a value from a reference is called dereferencing.",
  "// A dereference operation is indicated using * before the name of the reference variable or using",
  "// the . operator.",
  "//",
  "// The type system of Rust and C++ allows to create types with generic purposes so in the time the",
  "// composition of the generic types and the deferencing operator provided a popular solution in",
  "// which some types are created to be then dereferenced making guarantees on the pointed data.",
  "// This concept is often called \"smart pointers\".",
  "// ",
  "// Due to the strict rules on ownership imposed by Rust, is impossible to create circular",
  "// structures using only references. The only way without explicitly using unsafe code is to use",
  "// smart pointers like Rc or Arc (if in multi-threaded environment).",
  "//",
  "// ----------------- Smart pointers in C++ -----------------",
  "//",
  "// In C++ is possible to declare smart pointers like unique_ptr or shared_ptr.",
  "// The first created by the function make_unique passing the original value ensures that only a",
  "// pointer will exist to the original value and if one more gets created it will create an error.",
  "// Shared prt is created with make_shared passing it the value, it keeps a counter of the",
  "// references pointing a value and when it reaches zero it allows to deallocate the original value.",
  "// Since this mechanism a circular structure cannot be created using unique or shared pointers. In",
  "// this case is possible to use weak_ptr which can be instantiated using a downgrade option on a",
  "// shared pointer.",
  "//",
  "// ----------------- Smart pointers in Rust -----------------",
  "//",
  "// In Rust a major variety of smart pointers exists.",
  "// Many pointers can be mapped to the same functionalities that C++ provides like:",
  "// - The Box pointer in rust is similar to the unique_ptr in C++",
  "// - Rc is similar to shared_ptr in C++",
  "// - Weak is similar to weak_ptr in C++",
  "// Tho the variety in Rust is also given by the differentiation from pointers that have to be used",
  "// in non threaded environments and in threaded. Like Rc in Rust as a version of the same",
  "// functionalities to be used in multi-threaded environments called Arc.",
  "// And some other pointers in Rust refer to abstractions that are only related to how Rust works,",
  "// like Cell, RefCell and Cow are pointers that allow to bypass rules imposed by the borrow checker",
  "// at compile time. And Mutex and RwLock are pointers that can be used in multi-threaded",
  "// environments to maintain consistency between threads.",
  "// In general smart pointers consists of generics with metadata fields used to the specific",
  "// functionality they implement and the implementation of the traits Deref and DerefMut.",
  "//",
  "// ---------------- Box -----------------",
  "//",
  "// Box allows as smart pointer to take ownership of the data in memory. Allowing so to move this",
  "// pointer between functions without the need of expliciting the life time of the data since the",
  "// box pointer will guarantee his ownership.",
  "// Box is also used to contain pointer to dynamic values, like values which have not known type at",
  "// compile time. This is done pointing the trait vtable they implement rather than the data itself.",
  "//",
  "// ---------------- Rc ----------------",
  "//",
  "// Rc is a smart pointer which contains a reference to the value and two more numerical fields",
  "// which represent the actual references to the same data in the program.",
  "// They get incremented when a new reference is created using and decrement when a",
  "// reference goes out of scope. The first counter is incremented when Rc::clone() is called.",
  "// The first counter in Rc counts the number of effective copies of the value and is called strong",
  "// counter. While the second counts only the weak references to it and is then called weak counter.",
  "// While multiple references can be created using & the Rc smart pointer will take a copy of the data",
  "// ignoring the borrow checker rules and allowing than the programmer to ebsentially do nothing",
  "// else than a copy instead of a reference.",
  "// Alone will not give much of a real usage but when combined with RefCell it can be used to create",
  "// multiple mutable references to the same data.",
  "//",
  "// Note that the increment of strong and weak counter is not thread safe but gets significant",
  "// performance gains. To use a thread safe version of Rc is possible using Arc.",
  "// ",
  "// ---------------- Weak ----------------",
  "//",
  "// The weak pointer does the same thing of Rc but allowing only a counter on the real references to",
  "// the data and not to the copies. This allows the programmer to write circular structures like",
  "// trees and graphs.",
  "// A weak value can be only created using Rc::downgrade() and can return to an Rc using Weak::upgrade().",
  "// The upgrade operation results in an Option value that will be None if the original value is",
  "// nomore in memory or if the Rc is still in memory.",
  "//",
  "// ---------------- Cell ----------------",
  "//",
  "// The cell pointer is used for internal mutability, it allows to modify a field inside of an",
  "// immutable structure. It substancially avoids the compiler to check the pointed data creating a",
  "// copy on the cell creation and then using mutable pointers to change the data.",
  "// Cell provides the following methods:",
  "// - get() to get a copy of the contained value",
  "// - take() to get a the contained value moving it outside of the cell and replacing it with the",
  "// default for that type (requires Default trait)",
  "// - replace(value) to replace the contained value with a new one",
  "// - into_inner() to return the contained value and the dropping the cell",
  "//",
  "// ---------------- RefCell ----------------",
  "//",
  "// Given that Cell does use references to the data to change it, externally it does not allows the",
  "// programmer to point the data. Here comes RefCell which allows to do this.",
  "// RefCell implements method like borrow() and borrow_mut() to get a reference to the data.",
  "//",
  "// ---------------- Cow ----------------",
  "//",
  "// Cow is a smart pointer that allows to create a pointer to a value and when the value gets",
  "// modified to update immediately the references to the value. Cow infact stands for Copy On Write.",
  "// Is implemented as an enum and can generate an instance of the pointer using the Cow::from()",
  "// method.",
  "// If the value is copiable the Cow pointer will contain an Owned instance and if is not copiable a",
  "// Borrowed instance. When Cow::clone() is called it will return another pointer containing a copy of the value.",
  "//",
  "// -------------- Additional notes ----------------",
  "//",
  "// The self parameter in data structures can also have Box<Self>, Rc<Self> or Arc<Self> type but",
  "// must be explicitly used.",
  "// counter only works for weak references.",
  ""
]

/-- Verbatim line-by-line content of src/bin/11-module_test.rs (93 lines). -/
def file_11_module_test : List String := [
  "// -------------- Modules and tests ----------------",
  "//",
  "// Rust offers a package manager called cargo to manage the projects written in rust, the imported",
  "// libraries, the test written for a given project and many other useful tools.",
  "// A project created with cargo is called crate. A crate can be considered a group of compilable",
  "// files. The scope of a project created in through the use of crates can be a library or an",
  "// executable program.",
  "// A crate that aims to be compiled as an executable is called binary crate. Usually they contain a",
  "// main.rs file and a main() function which will be the entry point of any code in the crate.",
  "//",
  "// LIBRARY TYPES",
  "//",
  "// Each crate has a file called Cargo.toml which specifies metadata about the project, each section",
  "// of this file is indicated by a [section] header. The Cargo.toml gets automatically created by",
  "// cargo when a new crate is created. The [lib] section has a field called crate-type which can",
  "// have one of the following values:",
  "// 1. rlib",
  "// 2. dylib",
  "// 3. cdylib",
  "// 4. staticlib",
  "// The field crate-type specifies, if the crate is a library, which type of library output is",
  "// needed.",
  "// 1. For example specifing rlib as crate-type the compilation will result in a file that can be",
  "// included only by other rust files.",
  "// 2. A dylib will result in a .dll file if on",
  "// windows, a .so file if on Linux or .dylib on MacOS. This kind of library is called dynamic since",
  "// it can be loaded only a runtime. It can be used only by rust programs.",
  "// 3. A cdylib will result in a .dll file if on windows, a .so file if on Linux or .dylib on MacOS",
  "// but will be compiled using the C abi standard so that the result can be loaded by any",
  "// language.",
  "// 4. A staticlib will result in a static library compiled as .lib on windows or .a in Linux and",
  "// MacOs. This kind of library is included in a project at compile time and can be used by any",
  "// language. It requires to be imported as an external function if used in a Rust program.",
  "//",
  "// MODULES",
  "//",
  "// A crate is represented internally as a tree of modules. A module can be a single file with .rs",
  "// extension or a folder containing a mod.rs file.",
  "// A single file can contain multiple modules declaring them explicitely as the code contained",
  "// within the declaration \"mod module_name \x7b...\x7d\". Each element within a module is private (cannot",
  "// be imported outside of the module) if not marked with the pub keyword.",
  "// A module declaration preceeded by the pub keyword is accessible also if is parent module is",
  "// imported.",
  "// To import modules declared in same file of the entry point of a crate is possible to call their",
  "// elements using the crate keyword followed by the \"::module_name\". If the module is declared as a",
  "// file can be imported using the \"use\" keyword. Note that if the module path is declared starting",
  "// from the current module it should be preceeded by \"self::\" or if relative to the module parent",
  "// \"super::\". ",
  "// ",
  "// DEPENDENCIES",
  "//",
  "// Crate dependencies can be declared under the section [dependencies] in the Cargo.toml file.",
  "// They should be declared as the name of the external crate followed by = \"version number\".",
  "//",
  "// PRELUDE",
  "//",
  "// The prelude module contains essential rust types like Vec, String and so on.",
  "// The prelude module is always included in the Rust project by default. Cargo decides which",
  "// version to include depending on value of package/edition field in Cargo.toml.",
  "//",
  "// TESTS",
  "//",
  "// A test in conceptually a set of line of code that uses a certain element of the main code to",
  "// check if it works as intended. Tests are important if written in a balanced way before and after",
  "// the actual implementation of the code. Piloting the program to act as the tests written before",
  "// want and not breaking features with the tests written after.",
  "// Tests on the behaviour of a single element of a module are called unit tests.",
  "// Tests on the behaviour of the interaction between two modules are called integration tests.",
  "// Tests on the behaviour of the whole program are called end-to-end tests.",
  "// The whole stack of tests consists of a manual.",
  "// ",
  "// The submodule in which the unit-tests are written is commonly called tests.",
  "// The submodule of unit tests has to be preceeded by the #[cfg(test)] annotation.",
  "// Using the command `cargo test` the tests will be executed.",
  "// The integration tests instead are usually written inside of a \"tests\" folder in the same",
  "// directory of src folder.",
  "// To test the behaviour of modules the integration tests have to import the module using the",
  "// keyword \"use\" followed by \"crate::module_name\".",
  "// A test is a function marked with the #[test] annotation.",
  "// The implementation of a test usually prepares the variables on which the code will be executed,",
  "// execute the code needed to simulate a functionality and then checks if the result is as expected.",
  "// To check the result of the code the std library provides the assert!, assert_eq! and assert_ne! macro.",
  "// To verify an error is excepted is possible to annotate a test with the #[should_panic(expected=\"message\")] annotation.",
  "// If a test returns a Result<T,Error> is possible to use the condition to check if test is failed.",
  "// Is possible to execute tests containing a specific substring in the name using the command",
  "// \"cargo test\" followed by the substring.",
  "// Is also possible to annotate tests with the #[ignore] annotation to ignore them when using cargo",
  "// test.",
  "// Also ignore annotated test can be executed using the command \"cargo test -- --ignored\".",
  "//",
  "//",
  "//",
  ""
]

/-- Verbatim line-by-line content of src/bin/12-concurrency.rs (635 lines). -/
def file_12_concurrency : List String := [
  "// ---------------- Concurrency ------------------",
  "//",
  "// THREADS",
  "// A concurrent program has two or more threads in execution at the same time.",
  "// They have to persue a common objective. This threads can be executed in parallel if the CPU has",
  "// multiple cores and/or the switch in execution under control of a scheduler.",
  "// When a program is created it defaults to a single process having a single thread.",
  "// When the execution has to be parallelized, the main thread requests to the scheduler the",
  "// creation of a another thread. Each thread represents an indipendent computation, it runs the",
  "// instructions on a separate stack and runs till is concluded returning a result or an error.",
  "// The OS and/or libraries allocate the memory and other fisical resources while the scheduler",
  "// decides which core has to be used at runtime to perform each instruction on a given thread.",
  "// All the threads are created with a unique identifier and for each one in use the execution state",
  "// is saved.",
  "// The thread handling can be totally demanded to the OS, in this case they are called native",
  "// threads or demanded to a libray with the support of the OS, in this case they are called green",
  "// threads.",
  "// Both C++ and Rust offer in the std library support for native threads. Both offer external libraries",
  "// for green threads.",
  "// For native threads each OS handles the functionality in a personal flavour tho they still have",
  "// common features:",
  "//",
  "// - When a thread is created it returns an opaque handle to the thread.",
  "// - A thread can be identified with a TID (Thread ID).",
  "// - Each thread can be \"waited\" till it returns a result or an error.",
  "// ",
  "// The deletion of a running native thread is not implemented by the OS but can happen from the",
  "// code it runs.",
  "//",
  "// WHY THREADS?",
  "// Pros:",
  "// 1. They can be used to avoid stalls while for example waiting for an I/O operation.",
  "// 2. They avoid a much higher overhead given from multi-processing. Infact they can share data",
  "// using pointers since they operate on the same address space while processes should",
  "// communicate using signals or IPC tecniques that a data is ready and then when acknowleged it",
  "// make a copy on the destination process.",
  "// 3. Possibility to use real elaboration power of the whole machine using each core needed.",
  "// Cons:",
  "// 1. The program becomes much harder to write and debug.",
  "// 2. Memory is not anymore considerable as a static deposit, a value we expect to stay the same",
  "// may be changed from another thread.",
  "// 3. A mechanism of synchronization for memory access is needed.",
  "// 4. The order in which instructions are runt is not deterministic since each core has a cache.",
  "// ",
  "// MEMORY MODEL",
  "// When a thread fetches some data from memory it can find a value that:",
  "// - Was written at the start of the program, like a global variable",
  "// - Was previously written by himself",
  "// - Was written by another thread",
  "// The third case is particullarly hard to debug since the cache of the various cores can reorder",
  "// the instructions and then the real global order of execution of the whole program is not",
  "// deterministic.",
  "// The developer is obliged to implement in these cases an explicit synchronization model to make",
  "// threads operations on the memory have the established order of execution.",
  "// ",
  "// OPEN PROBLEMS",
  "// - ATOMICITY: Which operations have to be atomic (not interrupted by another thread), note ideally if all",
  "// wait for all other threads the execution is not anymore in parallel but if there are not",
  "// atomical instructions the program behaviour is umpredictable since it depends on the scheduler",
  "// decision to execute before or after an istruction.",
  "// - VISIBILITY: Under which conditions a thread should know another thread did something?",
  "// - ORDERING: Under which conditions the instructions of a thread can appear in another order to",
  "// another thread?",
  "//",
  "// PROCESSOR ANSWERS",
  "// The x86 family of processors provides \"fence\" instructions that cannot be stopped.",
  "// The ARM family of processors provides \"memory barrier\" instructions that are locked till a",
  "// certain result is not provided by another thread.",
  "// These implementations condition programmers to include them in their code to make a predictable",
  "// output from a concurrent execution. Both C++ and Rust are binded to libraries and types that",
  "// follow the processors conventions.",
  "//",
  "// ERRORS",
  "// Making a bad use of a synchronization mechanism results in unpredictable behaviours or",
  "// passive/active blocks due to waiting for other threads result/or waiting for a lock to be released.",
  "// These errors do not necessarily show up quickly but can appear after a certain amount of",
  "// executions of the same program or changing the platform on which the program is running.",
  "//",
  "// THREADS AND MEMORY",
  "// OS keeps a representation of the threads within each process. Each one is marked with a TID, has",
  "// a execution state and a set of parameters to resume/pause the execution of a thread.",
  "// All the threads share global variables, constants, heap and the memory in which is placed the",
  "// code to execute.",
  "//",
  "// EXECUTION AND NON-DETERMINISM",
  "// The code inside a single thread is executed in order so as in a non-threaded environment",
  "// understand what happens \"before\" and \"after\". Is tho not possible make assumption at a given",
  "// instruction of a thread A make assumption on the state of progress of a thread B.",
  "// Substantially a thread executes his code in order but is not possible to establish a relative",
  "// speed respect of another thread. ",
  "// Another concept to keep in mind while writing a concurrent program is relative to",
  "// synchronization methods.",
  "// 1. A synchronization method is based on the reach of a \"particular\" state of a thread to unlock",
  "//    the execution of the others.",
  "// 2. A synchronization method can be based on the lock of the other threads while executing a",
  "//    \"particular\" instruction on a shared resource.",
  "// 3. A third case regards both the cases and instructions which influence the computation of a",
  "//    \"particular\" value.",
  "// ",
  "// SYNCHRONIZATION",
  "//",
  "// If two threads try to read/write the same variable a critical race happens.",
  "// In base of conditions that the programmer cannot control like, core\'s cache state or scheduler",
  "// decisions the program assumes a different behaviour on a thread accessing the same variable",
  "// before the other.",
  "// The access to a shared behaviour should be preceeded by a fence/barrier instruction. The",
  "// variable should be modified only if is not being currently modified by any other thread.",
  "// At the same time we want to avoid a continuous pooling to catch when the variable is not",
  "// modified because it would consume CPU cycles and battery.",
  "// In safe rust is not possible to concurrently access a variable and modified since the ownership",
  "// rules wouldn\'t allow to compile such a program (more than one thread cannot own at the same time",
  "// the variable).",
  "// Both Rust and C++11 offer libraries that standardize the various OSes synchronization",
  "// mechanisms.",
  "//",
  "// Examples:",
  "//",
  "// WINDOWS STRUCTURES:",
  "// - CriticalSection",
  "// - SRWLock",
  "// - ConditionVariable",
  "//",
  "// WINDOWS KERNEL STRUCTURES:",
  "// - Mutex",
  "// - Event",
  "// - Semaphore",
  "// - Pipe",
  "// - Mailslot",
  "// ...",
  "//",
  "// LINUX STRUCTURES:",
  "// - pthread_mutex",
  "// - pthread_cond",
  "// ",
  "// LINUX KERNEL STRUCTURES:",
  "// - Semaphore",
  "// - Pipe",
  "// - Signal",
  "// - Futex",
  "//",
  "// CORRECTNESS",
  "// Is required to never make so that a thread writes a variable while another is reading/writing on the same one.",
  "// In particular, transitional states do not have to be visible to the threads so that they cannot",
  "// perform read/write operations on a transitional state of the object.",
  "// All the shared objects should enforce this rule keeping an invariant state in between of the",
  "// operation performed.",
  "// Mutations should happen only when the variable state before and after is valid, and the mutation",
  "// is not on a mutating state variable.",
  "// The state of the shared variable should be modified through methods that check that the variable",
  "// is not being modified.",
  "// Almost all languages delegate to the programmer to understand when and where synchronization",
  "// should happen.",
  "// In Rust limitations of the borrow checker on the exclusivity of writing a variable united to the",
  "// traits that model the behaviour of a type when it gets passed between threads (Sync, Send)",
  "// guarantee the correctness of the accesses.",
  "// This limitations to the programmer bringed the concept of \"fearless concurrency\" to Rust.",
  "//",
  "// SHARED ACCESS",
  "// PROBLEMS",
  "// - Atomicity: which operations have indivisible effects? Write and read operations over the same",
  "// variable have no known order of execution a priori.",
  "// - Visibility: a write operation can be observed by a read operation of another thread? No the",
  "// value in between of the write operation can be different from the initial value and even from",
  "// the expected final value.",
  "// - Orderinig: under which conditions, sequence of operations of a thread are seen in the same",
  "// order from other threads? If the operations of the thread produce the same output in whatever",
  "// order they are executed.",
  "// SOLUTIONS",
  "// - Atomic: a variable that has not intermidiate state while being modified. Limited on integers,",
  "// booleans and pointers. These are offered in the std libraries both in C++ and Rust. Rust does it",
  "// on more abstracted variables providing types that ensure through barriers atomicity.",
  "// - Mutex: offers a synchronization method to grant atomicity to complex types, extend mutual",
  "// exclusion on the threads operations on the same variable. If another thread tries to access a",
  "// shared variable that is being modified it gets forced to wait the end of the modification.",
  "// - Condition variable: in some cases, should wait without consuming CPU cycles - that verifies a",
  "// condition more complex than the mutex relaxation from a thread.",
  "// A condition variable allows to implement this wait, with the condition that the thread which",
  "// blocks the others notifies the others when the operation is over.",
  "// A condition variable can also be used in couple with a mutex.",
  "//",
  "// THREAD USAGE",
  "//",
  "// The API of the OSs allow to create and close threads, synch them or assign them private",
  "// locations in memory. The details of the API on each OS differ enough to make hard to port an",
  "// application written on one API to another platform.",
  "// In 2011 C++ introduced a standard API to create and handle threads so that the API in C++ is",
  "// uniform and makes the application portable on different OSs.",
  "// In Rust is done the same with a major attention to the handle of failures.",
  "//",
  "// THREADS IN C++",
  "//",
  "// The C++ library std::thread provides an object called thread that effectively creates a thread",
  "// when his constructor gets invoked. This object contains an opaque handle to the native thread",
  "// created by the OS. The programmer can use the object methods like join() to wait that the",
  "// thread has terminated or detach the execution from the OS calling the detach() method.",
  "// Once the object gets destroyed the destructor checks that the connected thread has been",
  "// terminated and if not calls the method terminate() to force the termination.",
  "// If the thread terminates for an error it gets closed calling terminate().",
  "//",
  "// THREADS IN RUST",
  "//",
  "// In Rust the library is std::thread, it contains the method spawn() which takes as argument a",
  "// lambda function to specify the code it has to execute and returns an handle with type",
  "// JoinHandle<T> where T is the type the thread will return.",
  "// To wait the thread termination the library provides a method on the struct JoinHandle called",
  "// join(). The join() method returns a Result analog the one often used in non-parallel Rust but",
  "// defined in std::thread::Result since it contains a result or an error only provoked by the",
  "// thread itself. In this way once a thread is created it is totally indipendent from the rest of",
  "// the threads it can survive even if the others terminate. In other words there is no relation",
  "// parend-child between the thread that spawns another one and the thread created. If the thread",
  "// created exits the scope in which was defined it acquires the state detatched and the creator has",
  "// no more ways to communicate with it/retrieve a result from it.",
  "// ",
  "// If needed rust allows the programmer to configure the thread creation through a builder.",
  "// The std::thread::Builder struct allows to specify parameters like the thread name or the thread",
  "// stack size.",
  "//",
  "// As stated above rust helps the programmer forcing his code to behave correctly.",
  "// Traits Send and Sync are part of the cohercing method rust adopts.",
  "// The trait Send is inherited by all the data structure which can be safely shared between",
  "// threads because they cannot be red and/or written by multiple threads at the same time.",
  "// Pointers and reference DO NOT implement the Send trait. So Sync is a trait that gets",
  "// auto-implemented (as Send) by &T when a generic type T implements Send.",
  "// Composed types like structs, enums and arrays of types that implement the Send trait \"inherit\"",
  "// the Send trait for themselves.",
  "// If a type gets passed by reference (immutable) to other threads it has to implement then the",
  "// Sync trait and if it doesn\'t the compiler will avoid the code to compile.",
  "// ",
  "// !!!Is important to note that types that allow interior mutability like types which contain Cell",
  "// or RefCell do not implement the Sync trait and so references to them cannot be shared between different threads!!!",
  "// ^",
  "// | This is a perfect example of how Rust coherces the concurrent code written by the programmer to not be",
  "// dangerous.",
  "// ",
  "// In rust many ways to realize synchromization methods between different threads are acheivable.",
  "// In the standard library are contained structures and methods to acheive two basics models to",
  "// make threads concurrent on a shared data structure:",
  "// 1. Synch threads when accessing shared data. (locks-like mechanisms)",
  "// 2. Synch threads when a given critical section is done. (message based mechanism)",
  "//",
  "// If the programmer wants to synch his concurrent code in other ways is also possible to use",
  "// already-made libraries like: actix (synch through an actor model), rayon (work stealing model)",
  "// and crossbeam (share data from a parent thread to his childs).",
  "//",
  "// ------------------------------ ACCESSING CRITICAL SECTIONS THROUGH LOCKS -----------------------",
  "//",
  "// Rust allows this approach giving the programmer Mutex constructs. A Mutex (MUTual EXclusion lock),",
  "// allows the programmer to lock the access of a data contained in the stack to a single thread and",
  "// then release it when the critical operation is done. Mutex implements methods like lock() and",
  "// unlock() to do the operations just described. When a different thread from the one which is",
  "// operating on the mutex data tries to lock the same resource it gets paused (enters a loop) and",
  "// awaits for unlock on the resource from the thread which is using the same resource requested.",
  "// Is tho true that making a concurrent program in which each thread waits indefinetly for a",
  "// resource reduces parallelism making the program non-concurrent in a extreme case.",
  "// So programmer responsiblity is to assess which data should be locked and where this practice is",
  "// necessary.",
  "// The lock() method returns a LockResult<MutexGuard<T>> which can contain either the mutex guard",
  "// to the resource acquired or an indefinite wait (following the same implementation of Result<T,",
  "// Error>,  Result<Guard, PoisonError<Guard>>).",
  "// When the result is_ok(), the content is MutexGuard which is a struct implementing the Deref",
  "// trait, this allows to obtain a mutable reference to the contained data.",
  "// An important thing to note is that to generate a MutexGuard using the Mutex.lock method is that",
  "// the Mutex should be owned from the caller thread. This so allows only a thread at time to",
  "// operate on it.",
  "//",
  "// To use this mechanism allowing to operate in multi-threaded fashion a struct which operates in a",
  "// similar way is given, Arc<T> (Atomic Ref Cell). std::sync::Arc is a struct used as a wrapper that allows to ",
  "// make clones of a data keeping count of the references available across multiple thread so that",
  "// when the last reference goes out of scope the struct deallocates the memory which contains the",
  "// wrapped data.",
  "// So in a multi-threaded envoirment a shared lockable data appears as:",
  "//",
  "// Arc::new(Mutex::new(THE DATA))",
  "//",
  "// MAKING THE COMPILER UNDERSTAND LIFETIMES ACROSS MULTIPLE THREADS",
  "//",
  "// As stated in the title is not possible for the compiler to understand whether a reference has a",
  "// valid lifetime and so points an existing data.",
  "// Rust offers a function std::sync::scope() which takes a lambda function in which is possible to",
  "// spawn threads having the compiler checking lifetimes. This is achieved internally making the",
  "// thread representing the lambda function wait for the completion of each one of the threads",
  "// spawned inside of it.",
  "// The most common usage of this tecnique is sharing a common state across threads, here is an",
  "// example:",
  "//",
  "// \"",
  "// use std::thread::\x7bscope, thread\x7d;",
  "//",
  "// fn main() \x7b",
  "//     let mut v = vec![1, 2, 3];",
  "//     let mut x = 0;",
  "//     thread::scope(|s| \x7b",
  "//         s.spawn(|| \x7b // è lecito creare un riferimento a v",
  "//             println!(\"length: \x7b\x7d\", v.len());",
  "//         \x7d);",
  "//         s.spawn(|| \x7b // anche qui viene catturato &v",
  "//             for n in &v \x7bprintln!(\"\x7bn\x7d\"); \x7d",
  "//             x += v[0]+v[2]; // x è catturata come &mut ",
  "//         \x7d);",
  "//     \x7d);",
  "//     // Solo quando entrambi i thread saranno terminati si proseguirà",
  "//     v.push(4); // non ci sono più riferimenti, si può modificare",
  "//     assert_eq!(x, v.len());",
  "// \x7d",
  "// \"",
  "// ",
  "// READ/WRITE LOCKS",
  "//",
  "// Another common practice to improve performance in multi-threaded env, is locking resource based",
  "// on the operation to perform. In practice if the most common operation on a data for example is",
  "// reading it and occasionally some thread writes to it is more usefull to implement a RwLock",
  "// instead of a Mutex. What RwLock does is to capture the data passed to it and make a thread lock",
  "// the read or the write on it. Is important to note that if a thread locks the data to write it no",
  "// other operations can occour while if a thread locks the data to read it other threads can also",
  "// lock it to read it. This reduces the \"friction\" from having parallel processing and making",
  "// threads wait for a resource.",
  "// RwLock::new(DATA) is the way to wrap a data inside this kind of lock.",
  "// RwLock.read() is the method to lock on reading.",
  "// RwLock.write() is the method to lock on writing.",
  "// As it happened for Mutex locking the resource returns a LockResult<SOME KIND OF GUARD>,",
  "// which can either return the guard to the data or making the thread wait for the resource unlock.",
  "// For RwLock two types of guards exist, RwLockReadGuard and RwLockWriteGuard.",
  "//",
  "// ATOMIC TYPES - A MORE PRACTICAL READ/WRITE LOCK WAY",
  "//",
  "// std::sync::atomic module contains primitive types as AtomicU8 for example which implement",
  "// barriers internally so that they shouldn\'t be wrapped in any kind of Mutex or RwLock.",
  "// Given the compiler still checking the ownership of variables they have to be wrapped in Arc tho",
  "// to be shared between different threads.",
  "// As for primitive types in single-threaded contexts their modification can happen dereferencing",
  "// an immutable reference so they don\'t need to be passed as &mut.",
  "// An example in which a usize in his atomic version is shared between two threads and while one",
  "// writes 0 in it the other waits it to be modified and then ends:",
  "//",
  "// \"",
  "//  use std::sync::Arc;",
  "// use std::sync::atomic::\x7bAtomicUsize, Ordering\x7d;",
  "// use std::\x7bhint, thread\x7d;",
  "// fn main() \x7b",
  "//     let spinlock = Arc::new(AtomicUsize::new(1));",
  "//     let spinlock_clone = Arc::clone(&spinlock);",
  "//     let thread = thread::spawn(move|| \x7b",
  "//         spinlock_clone.store(0, Ordering::Release);",
  "//     \x7d);",
  "//     // Attendi ",
  "//     while spinlock.load(Ordering::Acquire) != 0 \x7b",
  "//         hint::spin_loop();",
  "//     \x7d",
  "//     thread.join().unwrap();",
  "// \x7d",
  "// \"",
  "//",
  "// CIRCULAR DEPENDENCIES",
  "//",
  "// A problem not immediately obvious from the implicit operation of reference counters",
  "// such as Rc and Arc is that if they contain references to themselves, even if a",
  "// function of a data type contained in them holds a reference to them, the structure will never",
  "// be deallocated as the reference count cannot reach 0. A construct offered by Rust to solve this",
  "// circular dependency problem is std::sync::Weak (std::sync:: for Arc and std::rc:: for Rc).",
  "// The Weak structure allows to keep a count of the actual clones of a datum and not references to it, this",
  "// structure can be derived from an Arc type by invoking the downgrade() method.",
  "// Conversely having a Weak and wanting to get an Arc will invoke a medoto called",
  "// upgrade(). Note that the value type returned by upgrade is Option<Arc<T>> as",
  "// it is not always possible to upgrade.",
  "// ",
  "// CONDITION VARIABLES  ",
  "//",
  "// Often a thread has to wait for the completion of multiple operations/multiple conditions that",
  "// has to be verified. Rather than making locks all over resources needed in conditions to be",
  "// assessed, OS\'es offer a mechanism called condition variables. The advantage of using such",
  "// structures is that instead of pooling for the check of a condition this mechanism allows the",
  "// thread to automatically start when the condition is true and also while waiting not consume any",
  "// cpu cicles. In this mechanism each thread which is capable to change the current value of the",
  "// condition variable has the responsibility of sending a notification to the others if the",
  "// condition changes, so to make the condition accessible from a thread per time it has to paired",
  "// with a Mutex.",
  "// In C++ the condition variable mechanism is accessed through the library std::condition_variable,",
  "// in Rust std::sync::CondVar makes the same.",
  "// To make a CondVar work, it gets created with the method new(), it imposes the wait to the",
  "// calling thread through wait() and notifies the updated condition variable state through",
  "// notify_one() or notify_all(). Is important to note that notify_all wakes up all the waiting",
  "// threads but since they should be paired with a mutex they wake up all but one at a time.",
  "// Another important detail of the internal implementation is that a condvar internally keeps",
  "// a list of the waiting threads for the given condition, initially the list is empty and on every",
  "// wait call the caller thread get added to the list. A notification consumption removes a thread",
  "// from the internal list. This mechanism has to be understood by the programmer since there is no ",
  "// explicit way to force the correct execution whitin a construct so the implementation across",
  "// different threads is a programmer responsibility.",
  "// An example of usage of a condition variable in Rust:",
  "//",
  "// \"",
  "//    let pair = Arc::new((Mutex::new(false), Condvar::new()));",
  "//    let pair2 = Arc::clone(&pair);",
  "//    // Inside of our lock, spawn a new thread, and then wait for it to start.",
  "//    thread::spawn(move|| \x7b",
  "//    let (lock, cvar) = &*pair2;",
  "//    let mut started = lock.lock().unwrap();",
  "//    *started = true;",
  "//    // We notify the condvar that the value has changed.",
  "//    cvar.notify_one();",
  "//    \x7d);",
  "//    // Wait for the thread to start up.",
  "//    let (lock, cvar) = &*pair;",
  "//    let mut started = lock.lock().unwrap();",
  "//    while !*started \x7b",
  "//      started = cvar.wait(started).unwrap();",
  "//    \x7d",
  "// \"",
  "//",
  "// An example of the importance of the programmer implementation is given by the existence of the",
  "// following problems: false (1) and lost (2) notifications.",
  "// ",
  "// (1) FALSE NOTIFICATIONS",
  "// Given the concurrent nature of threads once a notification is emitted is rare but possible that one",
  "// thread enters the critical section guarded by the condition variable and before it has the",
  "// possiblity to lock the condvar for himself another thread enters the same condition giving to",
  "// the first the behaviour of a false notification. A method to reduce the occurrence of this behaviour is to use the",
  "// wait_while() method instead of wait(). This method double checks the condition entering and",
  "// exiting the \"unlocking\" phase so that if another thread in that specifing moment surpasses the",
  "// first in the \"acquiring lock\" logic execution the second check allows the first thread to not",
  "// falsely acquire the unlock from the condition variable.",
  "// The wait_while() method internal implementation therefore corresponds to the following pseudo-code:",
  "//",
  "// \"",
  "//  while condition(&mut *guard) \x7b",
  "//      guard = self.wait(guard)?;",
  "//  \x7d",
  "//  Ok(guard)",
  "// \"",
  "// ",
  "// (2) LOST NOTIFICATIONS",
  "// Always thinking of the natural implication of concurrency, given two threads in which one emits",
  "// notifications and the other consumes them if the \"emitter\" is faster than the \"consumer\" is",
  "// possible to have lost notifications since the consumer can be still executing a previous",
  "// notification while the second notification is sent.",
  "// There are two possible implementation to attempt to reduce the occurrences of this behaviour.",
  "// One implementation is similar to the solution of false notification, the \"consumer\" thread uses",
  "// wait_while() double checking the condition on the exit but this time the second check should be",
  "// made at the end of the exucution of the critical task, to make so that instead of going to wait",
  "// again the \"consumer\" repeats again the critical task if a second notification has occurred while",
  "// doing the first.",
  "// The second approach is philosophically pro-active from the \"consumer\" point of view.",
  "// Instead of waiting to get a notification, the consumer wakes up automatically each time a",
  "// timeout expires without the needing of a notification. This approach is beneficial in context",
  "// where is guaranteed that a notification should occour, but if this is not the case obviously can",
  "// lead to a false notification problem.",
  "// Rust offers methods such as wait_timeout() and wait_while_timeout().",
  "// The wait_while_timeout() method combines the two described approaches to the problem, making the",
  "// \"consumer\" thread automatically waking up after a timeout expires and making it check if the",
  "// condition has become true, if yes executes the critical task and if not returns to sleep.",
  "//",
  "// --------------------------------- ACCESSING CRITICAL SECTIONS THROUGH MESSAGES ------------------",
  "//",
  "// Rust offers the programmer to handle some sort of communication between threads even not using a",
  "// shared data state but a message mechanism. In this synch method three entities are given by rust",
  "// to ensure the synchronization between the threads happens correctly: Sender, Receiver and",
  "// channel(). Before threads are created the channel() method gets invoked returning a tuple",
  "// containing a Sender and a Receiver instance. Sender can be cloned. Then when the threads get",
  "// created each one can take a Sender and only one of the takes the Receiver. According to the kind",
  "// of data/message the programmer makes the threads send and the logic of the receiver it\'s",
  "// possible to implement any kind of synchronization mechanism. The Receiver struct has a method",
  "// called recv() which makes the thread wait until a message is received. If the thread that",
  "// acquires the Receiver ends each of the threads that have acquired the Sender will unleash a",
  "// SendError<T> while if the \"senders\" threads all ends and the \"receiver\" thread is still alive,",
  "// this \"receiver\" thread will unleash a RecvError.",
  "// Similarly to the Lock Mechanisms described before is possible that different messages gets sent",
  "// but the receiver is not yet consuming them. The function channel() just described has an",
  "// infinite capacity for those messages, an example of channel behaviour:",
  "//",
  "// \"",
  "//  use std::sync::mpsc::sync_channel;",
  "//  use std::thread;",
  "//  let (tx, rx) = channel();",
  "//  for _ in 0..3 \x7b",
  "//  let tx = tx.clone();",
  "//  // cloned tx dropped within thread",
  "//  thread::spawn(move || tx.send(\"ok\").unwrap());",
  "//  \x7d",
  "//  // Drop the last sender to stop `rx` waiting for message.",
  "//  // The program will not complete if we comment this out.",
  "//  // **All** `tx` needs to be dropped for `rx` to have `Err`.",
  "//  drop(tx);",
  "//  // Unbounded receiver waiting for all senders to complete.",
  "//  while let Ok(msg) = rx.recv() \x7b",
  "//  println!(\"\x7b\x7d\", msg);",
  "//  \x7d",
  "// \"",
  "//",
  "// If instead the envoirment of the threads requires that messages cannot be queued in the channel",
  "// without the receiver consuming a certain ammount the function sync_channel(n) allows to create",
  "// a channel which has a capacity of n messages, when a \"sender\" thread tries to send a message",
  "// on this kind of channel and the capacity has been already reached the \"sender\" thread gets blocked",
  "// waiting to the message slots being freed from the receiver.",
  "// Obviously the recv() method of the receiver frees one place in the channel storing queue.",
  "// If the sync_channel function receives a parameter 0, the channel is called a rendezvous this",
  "// special behaviour makes so that each written message blocks all the senders until the receiver",
  "// hasn\'t red the sent message. An example of a sync channel:",
  "//",
  "// \"",
  "//  use std::sync::mpsc::sync_channel;",
  "//  use std::thread;",
  "//  let (sender, receiver) = sync_channel(1);",
  "//  // this returns immediately",
  "//  sender.send(1).unwrap();",
  "//  thread::spawn(move|| \x7b",
  "//  // this will block until the previous message has been received",
  "//  sender.send(2).unwrap();",
  "//  \x7d);",
  "//  assert_eq!(receiver.recv().unwrap(), 1);",
  "//  assert_eq!(receiver.recv().unwrap(), 2);",
  "// \"",
  "//",
  "// ------------------- EXTERNAL LIBRARIES FOR CONCURRENT ENVOIRMENTS -----------------------",
  "// Additionally on top of the existing rust standard features several libraries have been created",
  "// by the rust community.",
  "//",
  "// CROSSBEAM",
  "// ",
  "// Crossbeam is a well-documented library that is actively maintained offering several additional",
  "// features like:",
  "//",
  "// - Atomic constructs, implementations for more rust primitives like an atomic version of the standard Cell,",
  "// crossbeam::atomic::AtomicCell allows to make interior mutability possible across multithreaded",
  "// env.",
  "// ",
  "// - Concurrent data structures, like crossbeam::deque::\x7bInjector, Stealer, Worker\x7d for creating",
  "// schedulers for stealing the free time of the cpu maxing the parallel behaviour or like",
  "// crossbeam::queue::\x7bArrayQueue, SegQueue\x7d that allow to implement message queues with multiple",
  "// producers and multiple consumers in both bounded and unbounded versions.",
  "//",
  "// - MPMC channels, as for the data structures (general state sharing synchronization methods)",
  "// crossbeam offers mechanisms to extend standard messaging synchronization with multiple producers",
  "// and multiple consumers both bounded and unbounded versions (crossbeam::channel::\x7bbounded(...),",
  "// unbounded(...)\x7d). Functions like crossbeam::channel::\x7bafter(...), tick(...)\x7d extend instead the",
  "// timed behaviour in the standard wait_timeout() fashion of lock mechanisms but for channels.",
  "//",
  "// More powerful patterns are introduced by this library making rust concurrent developement even",
  "// easier. Some concepts are:",
  "// - Fan-in / Fan-out, which makes possible distributing tasks to different threads and than",
  "// collect the results on a single scope. Example:",
  "//",
  "// \"",
  "//  fn worker(id: usize, rx: Receiver<i32>, tx: Sender<String>) \x7b",
  "//      while let Ok(value) = rx.recv() \x7b",
  "//          tx.send(format!(\"W\x7b\x7d (\x7b\x7d)\", id, value)).unwrap();",
  "//      \x7d",
  "//  \x7d",
  "//",
  "//  fn main() \x7b",
  "//      let (tx_input, rx_input) = bounded::<i32>(10);",
  "//      let (tx_output, rx_output) = bounded::<String>(10);",
  "//      let mut worker_handles = Vec::new();",
  "//      for i in 0..3 \x7b",
  "//          let rx = rx_input.clone();",
  "//          let tx = tx_output.clone();",
  "//          worker_handles.push( thread::spawn(move || worker(i, rx, tx)) );",
  "//      \x7d",
  "//      for i in 1..=10 \x7b tx_input.send(i).unwrap(); \x7d",
  "//      drop(tx_input);",
  "//      while let Ok(result) = rx_output.recv() \x7b",
  "//          println!(\"Received result: \x7b\x7d\", result);",
  "//      \x7d",
  "//      for handle in worker_handles \x7b handle.join().unwrap(); \x7d",
  "//  \x7d",
  "// \"",
  "//",
  "// - Pipeline, which makes the tasks serializable to keep an order of the operations while making",
  "// them at the same time as parallel as possible. Example:",
  "//",
  "// \"",
  "//  fn stage_one(rx: Receiver<i32>, tx: Sender<String>) \x7b",
  "//      while let Ok(value) = rx.recv() \x7b",
  "//          tx.send(format!(\"S1(\x7b\x7d)\", value)).unwrap();",
  "//      \x7d",
  "//  \x7d",
  "//  ",
  "//  fn stage_two(rx: Receiver<String>, tx: Sender<String>) \x7b",
  "//      while let Ok(value) = rx.recv() \x7b",
  "//          tx.send(format!(\"S2( \x7b\x7d )\", value)).unwrap();",
  "//      \x7d",
  "//  \x7d",
  "//",
  "//  fn main() \x7b",
  "//      let (tx_input, rx_input) = bounded::<i32>(10);",
  "//      let (tx_stage_one, rx_stage_one) = bounded::<String>(10);",
  "//      let (tx_output, rx_output) = bounded::<String>(10);",
  "//      let stage_one_handle = thread::spawn(move || stage_one(rx_input, tx_stage_one));",
  "//      let stage_two_handle = thread::spawn(move || stage_two(rx_stage_one, tx_output));",
  "//      for i in 1..=10 \x7b tx_input.send(i).unwrap(); \x7d",
  "//      drop(tx_input);",
  "//      while let Ok(result) = rx_output.recv() \x7b println!(\"Received result: \x7b\x7d\", result); \x7d",
  "//      stage_one_handle.join().unwrap();",
  "//      stage_two_handle.join().unwrap();",
  "//  \x7d",
  "// \"",
  "//",
  "// - Producer / Consumer, making clear roles between threads. Example:",
  "//",
  "// \"",
  "// fn producer(id: usize, tx: Sender<(usize,i32)>) \x7b",
  "//    for i in 1..=5 \x7b tx.send((id,i)).unwrap(); \x7d",
  "// \x7d",
  "//",
  "// fn consumer(id: usize, rx: Receiver<(usize,i32)>) \x7b",
  "//    while let Ok((sender_id, val)) = rx.recv() \x7b",
  "//       println!(\"Consumer \x7b\x7d received \x7b\x7d from \x7b\x7d\", id, val, sender_id);",
  "//    \x7d",
  "// \x7d",
  "//",
  "// fn main() \x7b",
  "//  let (tx, rx) = bounded::<(usize,i32)>(10);",
  "//  let mut handles = Vec::new();",
  "//  for i in 0..3 \x7b",
  "//      let tx = tx.clone();",
  "//      handles.push( thread::spawn(move || producer(i, tx)) );",
  "//  \x7d",
  "//",
  "//  for i in 0..2 \x7b",
  "//      let rx = rx.clone();",
  "//      handles.push(thread::spawn(move || consumer(i, rx)));",
  "//  \x7d",
  "//",
  "//  drop(tx);",
  "//  for handle in handles \x7b handle.join().unwrap(); \x7d",
  "// \x7d",
  "// \"",
  "//",
  "// ACTIX",
  "//",
  "// Actix is a library extending base rust features implementing the concept of actors.",
  "// Actors concept was first introduced by ErLang in 1973.",
  "// This approach removes the need of locks and general synchronization making threads work",
  "// in parallel on their own. If an actor receives an external message it proceeds to change it\'s",
  "// behaviour.",
  ""
]

/-- Verbatim line-by-line content of src/bin/13-processes.rs (140 lines). -/
def file_13_processes : List String := [
  "// --------------------- PROCESSES ------------------------",
  "//",
  "// A process is the unit base for an application within an OS.",
  "// Each process is characterized from a PID, Process ID.",
  "// It defines which memory addresses contain it\'s variables and it\'s code.",
  "// Binds the execution of the code to modify only the variables within the address range.",
  "// This concept is called isolation.",
  "// Even if isolated 2 processes can communicate through the file system or other mechanisms.",
  "// The set of possible ways in which 2 processes can \"talk\" is called IPC (Inter Process",
  "// Comunication).",
  "// Often applications desire to have multiple indipendent address-spaces to make their logic only",
  "// occasionally talk, this is the main reason for an application for being composed by multiple",
  "// processes. Another reason can be given by security to hide to a particularly vulnerable code",
  "// exposed to the usage of an user for example from an internal logic which has to collaborate with",
  "// the user. Each process is associated with at least one thread.",
  "// Windows, Linux and other OSes implement their own logic to handle all the operations on a",
  "// process.",
  "// Rust offers to the programmer a convenient api to write code that manipulate the processes being",
  "// at the same time agnostic of which OS is being executed on.",
  "// The struct Command in rust allows to create a new process. Example in which rust api is used to",
  "// detect the OS and run a terminal:",
  "//",
  "// \"",
  "//  use std::process::Command;",
  "//  fn main() \x7b",
  "//      let output = if cfg!(target_os = \"windows\") \x7b",
  "//          Command::new(\"cmd\")",
  "//          .args([\"/C\", \"echo hello\"])",
  "//          .output()",
  "//          .expect(\"failed to execute process\")",
  "//      \x7d else \x7b",
  "//          Command::new(\"sh\")",
  "//          .arg(\"-c\")",
  "//          .arg(\"echo hello\")",
  "//          .output()",
  "//          .expect(\"failed to execute process\")",
  "//      \x7d;",
  "//      println!(\"\x7b:?\x7d\", output)",
  "//      //Output \x7b status: ExitStatus(unix_wait_status(0)), stdout: \"hello\\n\", stderr: \"\" \x7d",
  "//  \x7d",
  "// \"",
  "//",
  "// Is also possible to add envoirment variables to the Command struct through the methods env(key, val) and envs(vars).",
  "// Using env_remove(key) and env_clear() is possible to remove env variables from the struct.",
  "// This envoirment variables are conveniently set before the process execution.",
  "// With the get_envs() method is possible to check which env variables are binded to the Command",
  "// struct.",
  "// Is also possible to manipulate the input, output and error streams of data going in/out from a",
  "// process using appropriate methods such as:",
  "// - stdout(...)",
  "// - stdin(...)",
  "// - stderr(...)",
  "// The arguments of the above methods are the kind of way in which the \"channels\" above will be",
  "// set.",
  "// The options are contained in the struct Stdio:",
  "// - inherit(), will inherit the correspondant \"channel\" from the process parent.",
  "// - piped(), will connect only the input to the parent and the output to the input of the given",
  "// process to create.",
  "// - null(), the specified \"channel\" will not produce/receive data.",
  "// An example in which the output of a \"echo \\\"Hello, world!\\\" \" on a terminal is redirected to the",
  "// parent and then used in rust within the output variable:",
  "//",
  "// \"",
  "//  fn main() \x7b",
  "//      let output = Command::new(\"echo\")",
  "//      .arg(\"Hello, world!\")",
  "//      .stdout(Stdio::piped())",
  "//      .output()",
  "//      .expect(\"Failed to execute command\");",
  "//  \x7d",
  "// \"",
  "//",
  "// Other operations available for a process from the rust api are:",
  "//",
  "// - Change the directory in which the process will start with current_dir(dir).",
  "// - Start a process and check if it returns successfully with status().",
  "// - Start a process without checking when it ends with spawn(), which returns a Result<Child>.",
  "//",
  "// If the creation of a process is successful then the struct Child can be used to communicate with",
  "// the process child.",
  "// Through the methods of Child is possible to read the PID assigned from the OS to the new process",
  "// with the method id(), wait() is used to wait for the end of the process, wait_with_output() is",
  "// used to wait for the end and capture all the output the process would have produced.",
  "// With the method kill() is possible to end the process instantly.",
  "// Is possible either to work on the process in the current execution of the rust program using",
  "// methods like std::process::exit(code), which terminates the process signaling to the OS the exit",
  "// code, std::process::abort which terminates and signals to the OS an arbitrary error code.",
  "// ",
  "// !!! Is important to note that panic!() in the current process does not end the process but frees",
  "// the memory !!!",
  "// ",
  "// The crate sysinfo allows the programmer to retrieve info on the processes in execution on the",
  "// current OS:",
  "//",
  "// \"",
  "//  fn main() \x7b",
  "//      let mut system = sysinfo::System::new();",
  "//      system.refresh_all();",
  "//      let name = system.process(Pid::from(1)).unwrap().name();",
  "//      println!(\"Process with id 1 is \x7b\x7d\", name)",
  "//  \x7d",
  "// \"",
  "// ",
  "// ORPHAN",
  "// A child process whose parent process terminates before the child terminate is called orphan",
  "// process. In Linux the child takes the PID of the terminated parent.",
  "//",
  "// ZOMBIE",
  "// A child process ending before its parent process invokes wait() is called a zombie process.",
  "// A zombie process is freed of its memory but is signaled to the OS as its PID is reserved, the",
  "// exit code is not provided and the counters of the resources used are not signaled to the OS. ",
  "//",
  "// -------------------------------- INTER-PROCESS COMMUNICATION (IPC) -----------------------------",
  "//",
  "// Normally OS work to make processes isolated, making them not sharing data. They allow tho some",
  "// mechanisms to send data from processes in execution. This set of mechanisms are called IPC.",
  "// Since pointers/references are logical addresses to share data between processes which only know",
  "// their own address space the only option suitable is to write and read to the filesystem. The",
  "// format in which is preferrable to write and read is bytes so that the content can be encrypted",
  "// if the data is sensible and the shared content has the minimum lenght possible.",
  "// ",
  "// SERDE",
  "//",
  "// A super useful crate to map structs and data in Rust into the correspondant format to expose in",
  "// the file system is serde. The serde library/crate allows to derive traits Serialize and",
  "// Deserialize. Implementing these traits allows the programmer to call methods such as:",
  "// - serde_json::to_string(&data_to_serialize);",
  "// - serde_json::from_string(&data_to_deserialize);",
  "//",
  "// INTERPROCESS",
  "//",
  "// Interprocess is a crate that maps the communication methods offered by each single supported OS",
  "// into a unique api in rust, allowing so the programmer to write code that works without knowing",
  "// which OS is being runt on.",
  "//",
  "// ZBUS",
  "//",
  "// Zbus is a crate to map the specific interprocess communication protocol of Linux.",
  "//",
  ""
]

/-- Verbatim line-by-line content of src/bin/14-asynchronous_programming.rs (209 lines). -/
def file_14_asynchronous_programming : List String := [
  "// -------------------- ASYNCHRONOUS PROGRAMMING --------------------",
  "//",
  "// As seen in concurrency programming parallel tasks can be complex, furthermore cpu",
  "// resources are critical in executing the logic a programmer wants for his application.",
  "// Often is more indicated to spend some time and watch at the problem to model and write code",
  "// to, other than concurrency model is available and well supported in rust another way to realize",
  "// parallel execution of an application.",
  "// When concurrent threads for example wait all for a critical resource locked and bounded by the",
  "// computation of an unique result we saw that the program becomes less parallel. In these",
  "// situations the approach of asynchronous programming is suggested.",
  "// Citation from \"Zero to production in Rust, 2022, L.Palmieri\": \"We should use threads when we need to elaborate in",
  "// parallel while we should execute asynchronously when we need to wait in parallel\".",
  "//",
  "// The asynchronous approach instead of the concurrent one suggests to not create a pool of threads",
  "// that run and wait for resources to enable their tasks but to define \"state machines alike structures\" that execute one task",
  "// and when they finish check if a resource is available and if it is become the desired task. ",
  "// Rust supports this programming style offering to the programmer a wide set of primitives, like Future",
  "// that is a structure used to define the above introduced virtual state machine, async keyword",
  "// that indicates to the compiler that a function is asynchronous and therefore his output should",
  "// be a Future, await keyword which indicates when an asynchronous function should be executed and",
  "// the code should block his execution until the function doesn\'t return a result.",
  "// ",
  "// FUTURE",
  "// All the rust code related to asynchronous programming rotates around the Future trait.",
  "// This trait has only one method called pool(...) which takes two parameters",
  "// (self: Pin<&mut Self> and context: &mut Context) and returns one enum called Pool",
  "// wrapping a generic result type. When a Future gets created (a function declaration preceeded by",
  "// async implies the following) the function given automatically gets an implementation of the",
  "// Future trait which will be written by the compiler (rustc). Every once in a while (depend on",
  "// what the function does) the pool method will be invoked, using the first argument of type Pin ",
  "// to allocate itself on the heap and so not be deallocated on the exit from its execution and the",
  "// context parameter will be used to check if the function result is ready or pending internally",
  "// using a Rust struct called Waker which will use threads to process the function result.",
  "//",
  "// IMPLEMENTING OUR OWN ASYNCHRONOUS STATE MACHINE",
  "// To have an effective asynchronous processing model we should create an enum containing the",
  "// possible states across the tasks execution and then implement on the enum the future trait.",
  "// Rust supports the state machine flow of the asynchronous operations but does not specifies how",
  "// the threads and in general the execution should proceed. More than one external library is",
  "// available to allow the programmer to implement his logic according to the scope of his",
  "// application. The following libraries match the missing standard features:",
  "//",
  "// - Tokio, supports asynchronous operations over file-systems, network-connections, databases and",
  "// more..",
  "// - smol, supports asynchronous lightweight operations and is suitable for low resource embedded",
  "// systems.",
  "// - async-std, offers counterparts of the standard library structures with an async fashion.",
  "//",
  "// TOKIO",
  "// This library initialiazes by default an n number of threads and keeps a queue of tasks to run",
  "// for each thread.",
  "// When a Processor (thread representation within tokio) ends the tasks in its queue it tries to fetch a task from the",
  "// others queue. ",
  "// Tokio library is based on the concept of minimizing the synchronization mechanisms using mostly",
  "// atomic variables to regulate interactions between threads.",
  "//",
  "// To initialize a project using tokio we should specify which tokio version to use within the toml",
  "// file, then we can start using it. It\'s required to annotate the entry point of the asynchronous",
  "// program with an annotation specifying in it how many threads should be used.",
  "// Then each function corresponding to a task should be passed as parameter to a function",
  "// invokation of tokio::spawn(...) and using the return type (future) it can be awaited if needed.",
  "//",
  "// Another explicit way to declare and wait an async task is given within tokio using the macro",
  "// join!(...) passing to it one or more functions implenting the Future trait (just preceed them",
  "// with await). Is either possible to use the macro try_join!(...) which is used to await tasks the",
  "// return Result types, so they can end with an error.",
  "// A join!(...) example:",
  "//",
  "// \"",
  "//  async fn do_stuff_async() \x7b … \x7d",
  "//  async fn more_async_work() \x7b … \x7d",
  "//",
  "//  #[tokio::main]",
  "//  async fn main() \x7b",
  "//      let (first, second) = tokio::join!(",
  "//      do_stuff_async(),",
  "//      more_async_work()",
  "//      ); ",
  "//      // do something with the values",
  "//  \x7d",
  "// \"",
  "//",
  "// Is either possible running multiple tasks in the join!(...) fashion to just wait for the first",
  "// to complete using another macro: select!(...). This macro takes a match like construct",
  "// specifying for each task passed a callback operation and when one task ends it matches the",
  "// callback and ends the others in execution. Example:",
  "// ",
  "// \"",
  "//  async fn do_stuff_async() \x7b … \x7d",
  "//  async fn more_async_work() \x7b … \x7d",
  "//  #[tokio::main]",
  "//  async fn main() \x7b",
  "//      tokio::select! \x7b",
  "//          _ = do_stuff_async() => \x7b",
  "//              println!(\"do_stuff_async() completed first\")",
  "//          \x7d",
  "//          _ = more_async_work() => \x7b",
  "//              println!(\"more_async_work() completed first\")",
  "//          \x7d",
  "//      \x7d;",
  "//  \x7d",
  "// \"",
  "//",
  "// Is possible to wait in the current thread using the function tokio::time::sleep(d:",
  "// Duration).await or execute a task and wait at max the specified timeout with the function",
  "// tokio::time::timeout(d: Duration, f: F).await where F is the Future (async function implementing the",
  "// task logic), is also useful to know that the return value of the timeout function is always a Result<T>",
  "// containing the return type T of the Future or an Error of type Elapsed if the timeout elapsed.",
  "// If an heavy task which takes a huge ammount of time is needed the function",
  "// tokio::task::spwan_blocking(...) can be used to ensure that the thread execution is stopped",
  "// until the task is not completed (overusing this can lead to very low performance).",
  "// Tokio offers structures for both sharing state and communicate between threads with messages.",
  "// An example of threads in tokio sharing state:",
  "//",
  "// \"",
  "//  use tokio::sync::Mutex;",
  "//  use std::sync::Arc;",
  "//  #[tokio::main]",
  "//  async fn main() \x7b",
  "//      let data = Arc::new(Mutex::new(0));",
  "//      let mut v = vec![];",
  "//      for _ in 0..4 \x7b",
  "//          let data = Arc::clone(&data);",
  "//          v.push(tokio::spawn(async move \x7b",
  "//              let mut lock = data.lock().await;",
  "//              *lock += 1;",
  "//          \x7d));",
  "//      \x7d",
  "//      for h in v \x7b let _ = join!(h); \x7d",
  "//      assert_eq!(*(data.lock().await), 4);",
  "//  \x7d",
  "// \"",
  "//",
  "// An example using messages:",
  "//",
  "// \"",
  "//  async fn some_computation() -> String \x7b \"Some result\".to_string() \x7d",
  "//  #[tokio::main]",
  "//  async fn main() \x7b",
  "//      let (tx, rx) = oneshot::channel();",
  "//      tokio::spawn(async move \x7b",
  "//          let res = some_computation().await;",
  "//          tx.send(res).unwrap();",
  "//      \x7d);",
  "//      //Do other work while the computation is happening in the background",
  "//      // Wait for the computation result",
  "//      let res = rx.await.unwrap();",
  "//  \x7d",
  "// \"",
  "//",
  "// An example using mpsc message channels:",
  "//",
  "// \"",
  "//  async fn some_computation(i: u32) -> String \x7b format!(\"Value \x7b\x7d\",i) \x7d",
  "//  #[tokio::main]",
  "//  async fn main() \x7b",
  "//      let (tx, mut rx) = mpsc::channel(100);",
  "//      tokio::spawn(async move \x7b",
  "//          for i in 0..10 \x7b",
  "//              let res = some_computation(i).await;",
  "//              tx.send(res).await.unwrap();",
  "//          \x7d",
  "//      \x7d);",
  "//      while let Some(res) = rx.await.unwrap() \x7b println!(\"\x7b\x7d\", res); \x7d",
  "//  \x7d",
  "// \"",
  "// ",
  "// An example of broadcast/mpmc channels:",
  "//",
  "// \"",
  "//  #[tokio::main]",
  "//  async fn main() \x7b",
  "//      let (tx, mut rx1) = broadcast::channel(16);",
  "//      let mut rx2 = tx.subscribe();",
  "//      tokio::spawn(async move \x7b",
  "//          assert_eq!(rx1.recv().await.unwrap(), 10);",
  "//          assert_eq!(rx1.recv().await.unwrap(), 20);",
  "//      \x7d);",
  "//      tokio::spawn(async move \x7b",
  "//          assert_eq!(rx2.recv().await.unwrap(), 10);",
  "//          assert_eq!(rx2.recv().await.unwrap(), 20);",
  "//      \x7d);",
  "//      tx.send(10).unwrap();",
  "//      tx.send(20).unwrap();",
  "//  \x7d",
  "// \"",
  "//",
  "// A reactive implementation approach/observe/watch channel example:",
  "//",
  "// \"",
  "//  #[tokio::main]",
  "//  async fn main() \x7b",
  "//      let (tx, mut rx) = watch::channel(\"value 0\");",
  "//      for i in 0..2 \x7b",
  "//          let mut rx = rx.clone();",
  "//          tokio::spawn(async move \x7b",
  "//              while rx.changed().await.is_ok() \x7b",
  "//                  println!(\"received: \x7b:?\x7d\", *rx.borrow() ); ",
  "//              \x7d",
  "//          \x7d);",
  "//      \x7d",
  "//      let d = Duration::from_secs(1);",
  "//      tx.send(\"value 1\").unwrap(); tokio::time::sleep(d).await;",
  "//      tx.send(\"value 2\").unwrap(); tokio::time::sleep(d).await;",
  "//      \x7d",
  "// \"",
  "//",
  "//",
  ""
]

def repoFiles : List (String × List String) := [
  ("src/bin/0-allocation.rs", file_0_allocation),
  ("src/bin/2-language.rs", file_2_language),
  ("src/bin/3-ownership.rs", file_3_ownership),
  ("src/bin/4-composite_types.rs", file_4_composite_types),
  ("src/bin/5-traits_generics.rs", file_5_traits_generics),
  ("src/bin/6-lifetimes.rs", file_6_lifetimes),
  ("src/bin/7-errors.rs", file_7_errors),
  ("src/bin/8-collections.rs", file_8_collections),
  ("src/bin/9-input_output.rs", file_9_input_output),
  ("src/bin/10-smart_pointers.rs", file_10_smart_pointers),
  ("src/bin/11-module_test.rs", file_11_module_test),
  ("src/bin/12-concurrency.rs", file_12_concurrency),
  ("src/bin/13-processes.rs", file_13_processes),
  ("src/bin/14-asynchronous_programming.rs", file_14_asynchronous_programming)
]
/-- Drops the leading space characters of a line, given as its character list. -/
def dropSpaces : List Char → List Char
  | [] => []
  | c :: cs => if c = ' ' then dropSpaces cs else c :: cs

/-- True on character lists that begin with the Rust line-comment marker. -/
def charsAreComment : List Char → Bool
  | '/' :: '/' :: _ => true
  | _ => false

/-- A line of a source file is prose when, after leading spaces, it is empty or is a
line comment.  Every line of every file of this repository is either prose or part of
the uncommented code fragment of src/bin/6-lifetimes.rs. -/
def isProseLine (s : String) : Bool :=
  match dropSpaces s.data with
  | [] => true
  | cs => charsAreComment cs

/-- The uncommented, non-blank lines of a file, in order. -/
def codeLines (ls : List String) : List String := ls.filter (fun s => !isProseLine s)

/-- True when the first list is a prefix of the second, on characters. -/
def charsBeginWith : List Char → List Char → Bool
  | [], _ => true
  | _ :: _, [] => false
  | a :: as, b :: bs => a = b && charsBeginWith as bs

/-- True when the pattern occurs as a contiguous substring of the character list. -/
def charsContain (pat : List Char) : List Char → Bool
  | [] => charsBeginWith pat []
  | c :: cs => charsBeginWith pat (c :: cs) || charsContain pat cs

/-- True when the line contains the pattern as a substring. -/
def lineContains (s pat : String) : Bool := charsContain pat.data s.data

/-- True when the line, after leading spaces, begins with the pattern. -/
def lineBegins (s pat : String) : Bool := charsBeginWith pat.data (dropSpaces s.data)

/-- The thirteen uncommented, non-blank lines of src/bin/6-lifetimes.rs
(lines 69-72, 74-76, 99-101 and 103-105 of the file): the illustrative code
fragment of the lifetimes notes.  All other lines of all fourteen files are
comments or blank. -/
def fragmentLines : List String := [
  "struct<\'a, \'b> Point \x7b",
  "    x: &\'a i32,",
  "    y: &\'b i32",
  "\x7d",
  "fn scale<\'a, \'b, \'c>(r: &\'c i32, p: Point<\'a,\'b>) -> i32 \x7b",
  "    r * (p.x * p.x + p.y * p.y)",
  "\x7d",
  "fn function(i: i32, d: f64) -> f64 \x7b",
  "    return i as f64 * d",
  "\x7d",
  "let ptr: fn(i32, f64) -> f64;",
  "ptr = function;",
  "ptr(10, 2.0);"]

/-- Smallest value of the Rust type i32. -/
def i32min : Int := -2147483648

/-- Largest value of the Rust type i32. -/
def i32max : Int := 2147483647

/-- The integer is representable in the Rust type i32. -/
def IsI32 (z : Int) : Prop := i32min ≤ z ∧ z ≤ i32max

instance (z : Int) : Decidable (IsI32 z) :=
  inferInstanceAs (Decidable (i32min ≤ z ∧ z ≤ i32max))

/-- Two's-complement wrap-around of an integer into the i32 range: the semantics of
Rust i32 arithmetic when overflow checks are disabled (release profile). -/
def wrap32 (z : Int) : Int := (z + 2147483648) % 4294967296 - 2147483648

/-- i32 multiplication, wrapping semantics. -/
def mul32 (a b : Int) : Int := wrap32 (a * b)

/-- i32 addition, wrapping semantics. -/
def add32 (a b : Int) : Int := wrap32 (a + b)

/-- i32 arithmetic step under the default (dev) profile: an intermediate result
outside the i32 range is an overflow, which panics; panicking evaluation is
modelled as none. -/
def checkedWrap (z : Int) : Option Int := if IsI32 z then some z else none

/-- Shallow embedding of the struct of src/bin/6-lifetimes.rs:69-72:
struct Point with two i32 fields x and y.  The fields are declared in the source
as references &i32 with their own lifetimes; a shared reference to an integer is
embedded as the integer it denotes. -/
structure Point where
  x : Int
  y : Int

/-- Shallow embedding of src/bin/6-lifetimes.rs:74-76, release (wrapping) semantics:
fn scale(r: &i32, p: Point) -> i32 returns r * (p.x * p.x + p.y * p.y), every
operation wrapping in i32. -/
def scale (r : Int) (p : Point) : Int :=
  mul32 r (add32 (mul32 p.x p.x) (mul32 p.y p.y))

/-- Shallow embedding of src/bin/6-lifetimes.rs:74-76 under the default (dev)
profile, where i32 overflow panics: each intermediate operation is checked, in the
evaluation order of the Rust expression r * (p.x * p.x + p.y * p.y). -/
def scaleChecked (r : Int) (p : Point) : Option Int :=
  match checkedWrap (p.x * p.x) with
  | none => none
  | some a =>
    match checkedWrap (p.y * p.y) with
    | none => none
    | some b =>
      match checkedWrap (a + b) with
      | none => none
      | some s => checkedWrap (r * s)

/-- Shallow embedding of src/bin/6-lifetimes.rs:99-101:
fn function(i: i32, d: f64) -> f64 returns i as f64 * d.  i32 is embedded as Int
and f64 as Float (IEEE 754 binary64, the type Rust f64 denotes); the cast
i as f64 is Float.ofInt. -/
def function (i : Int) (d : Float) : Float := Float.ofInt i * d

/-- Modelled from the spec: the spec states that the concurrency notes appear twice
in the repository, verbatim, while src/ holds a single copy
(src/bin/12-concurrency.rs); the second copy is a file of the repository missing
from src/, whose path the spec does not record.  It is modelled as a file at a
distinct, unknown path whose content is character for character the content of
src/bin/12-concurrency.rs, following the spec's words. -/
def secondConcurrencyCopy : String × List String :=
  ("<second copy of the concurrency notes, path not under src/>", file_12_concurrency)

/-- Substrings whose occurrence on a line marks I/O, file-system, process or
network activity in Rust source. -/
def ioTokens : List String :=
  ["println!", "print!", "std::fs", "std::net", "File", "read", "write",
   "stdin", "stdout", "Command", "TcpStream", "UdpSocket", "Path"]

/-- Substrings whose occurrence on a line marks thread, lock, channel, atomic or
async activity in Rust source. -/
def concurrencyTokens : List String :=
  ["thread", "spawn", "Mutex", "RwLock", "Condvar", "channel", "Sender",
   "Receiver", "send", "recv", "lock", "Atomic", "async", "await", "Arc",
   "join", "Barrier"]

/-- Wrapping is the identity on integers already in the i32 range. -/
theorem wrap32_eq_self {z : Int} (h1 : i32min ≤ z) (h2 : z ≤ i32max) : wrap32 z = z := by
  simp only [wrap32, i32min, i32max] at *
  omega

/-- A checked i32 step succeeds, with the exact value, when the value is in range. -/
theorem checkedWrap_some {z : Int} (h : IsI32 z) : checkedWrap z = some z :=
  if_pos h

/-- C1 (counterexample): the claim states that no source file contains a top-level
item that compiles as valid Rust.  But line 99 of src/bin/6-lifetimes.rs is an
uncommented line, and lines 99-101 form the complete top-level item
fn function(i: i32, d: f64) -> f64, which on its own is well-formed, compilable
Rust: its shallow embedding is the total function named function of this file,
which evaluates at the argument pair (10, 2.0) that line 105 of the same file
applies it to. -/
theorem fn_function_valid_item :
    file_6_lifetimes[98]? = some "fn function(i: i32, d: f64) -> f64 \x7b" ∧
    file_6_lifetimes[99]? = some "    return i as f64 * d" ∧
    file_6_lifetimes[100]? = some "\x7d" ∧
    isProseLine "fn function(i: i32, d: f64) -> f64 \x7b" = false ∧
    function 10 2.0 = Float.ofInt 10 * 2.0 :=
  ⟨by decide, by decide, by decide, by decide, rfl⟩

/-- C1 (amended): every line of every source file is prose (a line comment, or
blank), apart from the thirteen uncommented lines of the illustrative fragment of
src/bin/6-lifetimes.rs; the fragment's struct declaration is malformed, so the
fragment does not compile as a whole, but the fragment does contain one
top-level item, fn function at lines 99-101, that is by itself valid Rust. -/
theorem prose_except_fragment :
    repoFiles.map (fun f => codeLines f.2) =
      [[], [], [], [], [], fragmentLines, [], [], [], [], [], [], [], []] := by
  decide

/-- C2: the concurrency notes appear twice in the repository, verbatim: the file
src/bin/12-concurrency.rs and the second copy (a repository file not under src/,
modelled from the spec) are distinct files with character-for-character equal
content. -/
theorem concurrency_notes_twice_verbatim :
    secondConcurrencyCopy.1 ≠ "src/bin/12-concurrency.rs" ∧
    secondConcurrencyCopy.2 = file_12_concurrency ∧
    repoFiles[11]? = some ("src/bin/12-concurrency.rs", file_12_concurrency) :=
  ⟨by decide, rfl, rfl⟩

/-- C3 (counterexample): the claim states that no uncommented function definition is
present in any source file.  But line 74 of src/bin/6-lifetimes.rs is uncommented,
and is the head of the function definition fn scale. -/
theorem uncommented_fn_scale :
    file_6_lifetimes[73]? =
      some "fn scale<\'a, \'b, \'c>(r: &\'c i32, p: Point<\'a,\'b>) -> i32 \x7b" ∧
    isProseLine "fn scale<\'a, \'b, \'c>(r: &\'c i32, p: Point<\'a,\'b>) -> i32 \x7b" = false ∧
    lineBegins "fn scale<\'a, \'b, \'c>(r: &\'c i32, p: Point<\'a,\'b>) -> i32 \x7b" "fn " = true := by
  decide

/-- C3 (amended): no source file contains an uncommented fn main (there is no entry
point), and the only uncommented function definitions in the repository are the
two heads fn scale and fn function in src/bin/6-lifetimes.rs. -/
theorem no_uncommented_main_two_fns :
    (repoFiles.all fun f => (codeLines f.2).all fun s => !(lineContains s "fn main")) = true ∧
    (repoFiles.map fun f => (codeLines f.2).filter fun s => lineBegins s "fn ") =
      [[], [], [], [], [],
       ["fn scale<\'a, \'b, \'c>(r: &\'c i32, p: Point<\'a,\'b>) -> i32 \x7b",
        "fn function(i: i32, d: f64) -> f64 \x7b"],
       [], [], [], [], [], [], [], []] :=
  ⟨by decide, by decide⟩

/-- C4 (counterexample): the claim states that no function the source defines can
fail at any input.  But scale, at r = 1 and p = Point with x = 46341 and y = 0,
computes x * x = 2147488281, which exceeds i32max, an i32 overflow: under the
default (dev) profile, where overflow checks are on, this evaluation panics,
modelled by scaleChecked returning none. -/
theorem scale_overflow_fails : scaleChecked 1 ⟨46341, 0⟩ = none := by decide

/-- C4 (amended): evaluation of scale can fail by i32 overflow under the default
overflow-checking profile (and several commented-out snippets call unwrap, expect
and panic!, which can also fail); but whenever no intermediate value of scale
overflows i32, its checked evaluation succeeds and returns exactly
r * (x * x + y * y). -/
theorem scaleChecked_no_overflow (r x y : Int)
    (hx : IsI32 (x * x)) (hy : IsI32 (y * y))
    (hs : IsI32 (x * x + y * y)) (hr : IsI32 (r * (x * x + y * y))) :
    scaleChecked r ⟨x, y⟩ = some (r * (x * x + y * y)) := by
  simp only [scaleChecked, checkedWrap_some hx, checkedWrap_some hy,
    checkedWrap_some hs, checkedWrap_some hr]

/-- C4 (witness): the no-overflow theorem applied at r = 2, x = 3, y = 4. -/
theorem scaleChecked_no_overflow_witness :
    IsI32 ((3 : Int) * 3) ∧ IsI32 ((4 : Int) * 4) ∧ IsI32 ((3 : Int) * 3 + 4 * 4) ∧
    IsI32 ((2 : Int) * (3 * 3 + 4 * 4)) ∧
    scaleChecked 2 ⟨3, 4⟩ = some (2 * (3 * 3 + 4 * 4)) :=
  ⟨by decide, by decide, by decide, by decide,
    scaleChecked_no_overflow 2 3 4 (by decide) (by decide) (by decide) (by decide)⟩

/-- C5 (counterexample): the claim states that no function from inputs to outputs
definable from the repository's source exists for a test or theorem to exercise.
But scale, defined by src/bin/6-lifetimes.rs:74-76, is such a function, exercised
here at the concrete input r = 3, p = Point with x = 1, y = 2: the output is 15. -/
theorem scale_concrete_output : scale 3 ⟨1, 2⟩ = 15 := by decide

/-- C5 (amended): apart from the illustrative fragment of src/bin/6-lifetimes.rs,
whose functions scale and function do give input/output behavior a theorem can
exercise, no source file defines any uncommented code at all. -/
theorem io_behavior_only_fragment :
    ((repoFiles.filter fun f => f.1 ≠ "src/bin/6-lifetimes.rs").all
      fun f => codeLines f.2 == []) = true ∧
    scale 1 ⟨1, 1⟩ = 2 :=
  ⟨by decide, by decide⟩

/-- C6: the repository produces and consumes no external state: no uncommented line
of any source file mentions an I/O, file-system, process or network operation, and
the two functions the source defines, scale and function, are closed functions of
their arguments alone (their embeddings are the pure lambdas below). -/
theorem no_external_state :
    (repoFiles.all fun f => (codeLines f.2).all fun s =>
      ioTokens.all fun t => !(lineContains s t)) = true ∧
    scale = (fun r p => mul32 r (add32 (mul32 p.x p.x) (mul32 p.y p.y))) ∧
    function = (fun i d => Float.ofInt i * d) :=
  ⟨by decide, rfl, rfl⟩

/-- C7: the repository performs no concurrent work: no uncommented line of any
source file mentions a thread, lock, condition variable, channel, atomic or async
operation; every line of every file that does mention one is a comment, i.e. the
concurrency material is descriptive text only. -/
theorem no_concurrent_work :
    (repoFiles.all fun f => (codeLines f.2).all fun s =>
      concurrencyTokens.all fun t => !(lineContains s t)) = true := by
  decide

/-- C8: for i32 inputs r, x, y such that x * x, y * y, x * x + y * y and
r * (x * x + y * y) are each in the i32 range, scale returns exactly
r * (x * x + y * y). -/
theorem scale_exact (r x y : Int)
    (hr0 : IsI32 r) (hx0 : IsI32 x) (hy0 : IsI32 y)
    (hx : IsI32 (x * x)) (hy : IsI32 (y * y))
    (hs : IsI32 (x * x + y * y)) (hr : IsI32 (r * (x * x + y * y))) :
    scale r ⟨x, y⟩ = r * (x * x + y * y) := by
  simp only [scale, mul32, add32]
  rw [wrap32_eq_self hx.1 hx.2, wrap32_eq_self hy.1 hy.2,
    wrap32_eq_self hs.1 hs.2, wrap32_eq_self hr.1 hr.2]

/-- C8 (witness): the exactness theorem applied at r = 2, x = 3, y = 4. -/
theorem scale_exact_witness :
    IsI32 (2 : Int) ∧ IsI32 (3 : Int) ∧ IsI32 (4 : Int) ∧
    IsI32 ((3 : Int) * 3) ∧ IsI32 ((4 : Int) * 4) ∧ IsI32 ((3 : Int) * 3 + 4 * 4) ∧
    IsI32 ((2 : Int) * (3 * 3 + 4 * 4)) ∧
    scale 2 ⟨3, 4⟩ = 2 * (3 * 3 + 4 * 4) :=
  ⟨by decide, by decide, by decide, by decide, by decide, by decide, by decide,
    scale_exact 2 3 4 (by decide) (by decide) (by decide) (by decide) (by decide)
      (by decide) (by decide)⟩

/-- C9: scale is symmetric in the two fields of its Point argument: for all i32
inputs, including those whose intermediate products wrap, scale r (Point x y)
equals scale r (Point y x). -/
theorem scale_symm (r x y : Int) (hr : IsI32 r) (hx : IsI32 x) (hy : IsI32 y) :
    scale r ⟨x, y⟩ = scale r ⟨y, x⟩ := by
  simp only [scale, add32]
  rw [Int.add_comm (mul32 x x) (mul32 y y)]

/-- C9 (witness): symmetry applied at r = 5, x = 100000, y = 70000, inputs whose
squares wrap modulo 2^32. -/
theorem scale_symm_witness :
    IsI32 (5 : Int) ∧ IsI32 (100000 : Int) ∧ IsI32 (70000 : Int) ∧
    scale 5 ⟨100000, 70000⟩ = scale 5 ⟨70000, 100000⟩ :=
  ⟨by decide, by decide, by decide,
    scale_symm 5 100000 70000 (by decide) (by decide) (by decide)⟩

/-- C10: scale and function are deterministic: the bodies of both read no state
other than their arguments (their embeddings are pure functions), so two
evaluations on equal arguments give equal results. -/
theorem scale_function_deterministic (r r' : Int) (p p' : Point)
    (i i' : Int) (d d' : Float)
    (hrr : r = r') (hpp : p = p') (hii : i = i') (hdd : d = d') :
    scale r p = scale r' p' ∧ function i d = function i' d' := by
  subst hrr
  subst hpp
  subst hii
  subst hdd
  exact ⟨rfl, rfl⟩

/-- C10 (witness): determinism applied at the concrete arguments r = 2,
p = Point 3 4, i = 10, d = 2.0, with both evaluations given the same arguments. -/
theorem scale_function_deterministic_witness :
    (2 : Int) = 2 ∧ (Point.mk 3 4) = Point.mk 3 4 ∧ (10 : Int) = 10 ∧
    (2.0 : Float) = 2.0 ∧
    (scale 2 ⟨3, 4⟩ = scale 2 ⟨3, 4⟩ ∧ function 10 2.0 = function 10 2.0) :=
  ⟨rfl, rfl, rfl, rfl,
    scale_function_deterministic 2 2 ⟨3, 4⟩ ⟨3, 4⟩ 10 10 2.0 2.0 rfl rfl rfl rfl⟩

end RustLearning
